import Mathlib

/-!
Shallow embedding of the mobx-toolbox library (src/unnamed/part_004, the
current module starting at its second header) in Lean 4, together with
theorems settling the frozen claims about its specification.

The embedding models JavaScript values, the validation schema, the
debounce-group manager, and the MobxSaiFetch orchestrator (state machine,
scroll handler, data-merge step, and the mobxSaiFetch factory with its
id-keyed cache).  Stateful TypeScript methods become explicit
state-passing functions; the asynchronous fetch is split into its
synchronous admission phase, its fulfilled-continuation, its
rejected-continuation and its finally-continuation, mirroring the
`.then/.catch/.finally` structure of the source.
-/

namespace MobxToolbox

/-- A JavaScript value, restricted to the shapes the library manipulates.
Objects are association lists of string keys (first match wins, as for JS
object keys, which are unique). -/
inductive JsVal where
  | undefined : JsVal
  | null : JsVal
  | num (n : Int) : JsVal
  | str (s : String) : JsVal
  | bool (b : Bool) : JsVal
  | arr (items : List JsVal) : JsVal
  | obj (fields : List (String × JsVal)) : JsVal

/-- JS truthiness: `undefined`, `null`, `0`, `""`, `false` are falsy. -/
def JsVal.truthy : JsVal → Bool
  | .undefined => false
  | .null => false
  | .num n => n != 0
  | .str s => s ≠ ""
  | .bool b => b
  | .arr _ => true
  | .obj _ => true

/-- Is the value `null` or `undefined` (the values property access throws on). -/
def JsVal.nullish : JsVal → Bool
  | .undefined => true
  | .null => true
  | _ => false

/-- `v[k]` for non-nullish `v`: object key lookup, array numeric index,
`undefined` on primitives (JS returns `undefined` for absent properties). -/
def jsGet (v : JsVal) (k : String) : JsVal :=
  match v with
  | .obj fields => match fields.find? (fun p => p.1 = k) with
    | some p => p.2
    | none => .undefined
  | .arr items => match k.toNat? with
    | some i => (items.get? i).getD .undefined
    | none => .undefined
  | _ => .undefined

/-- `arr[i]` with an integer index (negative indices read as absent). -/
def jsIndex (v : JsVal) (i : Int) : JsVal :=
  match v with
  | .arr items => if 0 ≤ i then (items.get? i.toNat).getD .undefined else .undefined
  | _ => .undefined

/-- `v?.[k]`: optional chaining, `undefined` when `v` is nullish. -/
def optGet (v : JsVal) (k : String) : JsVal :=
  if v.nullish then .undefined else jsGet v k

/-- `v?.[i]`: optional chaining with an index. -/
def optIndex (v : JsVal) (i : Int) : JsVal :=
  if v.nullish then .undefined else jsIndex v i

/-- `v[k]` as an expression that throws a `TypeError` when `v` is nullish. -/
def jsGetE (v : JsVal) (k : String) : Except String JsVal :=
  if v.nullish then .error "TypeError: cannot read properties of null or undefined"
  else .ok (jsGet v k)

/-- `v[i]` (integer index) throwing on nullish `v`. -/
def jsIndexE (v : JsVal) (i : Int) : Except String JsVal :=
  if v.nullish then .error "TypeError: cannot read properties of null or undefined"
  else .ok (jsIndex v i)

/-- Assignment `v[k] = x` (functional): replaces the key on objects,
sets a numeric index on arrays, and leaves primitives unchanged. -/
def jsSet (v : JsVal) (k : String) (x : JsVal) : JsVal :=
  match v with
  | .obj fields =>
      if fields.any (fun p => p.1 = k) then
        .obj (fields.map (fun p => if p.1 = k then (k, x) else p))
      else .obj (fields ++ [(k, x)])
  | .arr items => match k.toNat? with
    | some i => .arr (items.set i x)
    | none => .arr items
  | _ => v

/-- Is the value an array (`Array.isArray`). -/
def JsVal.isArr : JsVal → Bool
  | .arr _ => true
  | _ => false

/-- The element list of an array value (`[]` otherwise). -/
def JsVal.arrItems : JsVal → List JsVal
  | .arr items => items
  | _ => []

/-- Clamp a JS slice index into `[0, len]`: negative indices count from the
end, positive ones are capped at the length. -/
def jsSliceIdx (len : Nat) (i : Int) : Nat :=
  if i < 0 then ((len : Int) + i).toNat else min i.toNat len

/-- `xs.slice(s, e)` with JS index semantics. -/
def jsSlice (xs : List JsVal) (s e : Int) : List JsVal :=
  ((xs.take (jsSliceIdx xs.length e)).drop (jsSliceIdx xs.length s))

/-- `xs.slice(s)` (one-argument slice). -/
def jsSlice1 (xs : List JsVal) (s : Int) : List JsVal :=
  xs.drop (jsSliceIdx xs.length s)

/-- The dot separator of path strings. -/
def dotChar : Char := '.'

/-- Split a character list on a separator (the semantics of JS
`String.prototype.split` with a one-character separator: `"" ↦ [""]`,
empty segments kept). -/
def splitChars (sep : Char) : List Char → List (List Char)
  | [] => [[]]
  | c :: rest =>
      let r := splitChars sep rest
      if c = sep then [] :: r
      else
        match r with
        | [] => [[c]]
        | h :: t => (c :: h) :: t

/-- `path.split(".")`, modelled over the character list
(`String.splitOn` does not reduce definitionally in this toolchain;
this is extensionally the same split). -/
def jsSplitOnDot (path : String) : List String :=
  (splitChars dotChar path.data).map (fun cs => String.mk cs)

/-- `getPathValue` from `MobxSaiFetch`:
`path.split(".").reduce((acc, key) => (acc && acc[key] !== undefined ? acc[key] : null), obj)`. -/
def getPathValue (obj : JsVal) (path : String) : JsVal :=
  (jsSplitOnDot path).foldl
    (fun acc key =>
      if acc.truthy then
        match jsGet acc key with
        | .undefined => .null
        | v => v
      else .null)
    obj

/-- One step of `setPathValue`: walk the keys, auto-creating `{}` for
falsy intermediates, and assign the final key. -/
def setPathKeys (v : JsVal) (keys : List String) (value : JsVal) : JsVal :=
  match keys with
  | [] => v
  | [k] => jsSet v k value
  | k :: rest =>
      let child := if (jsGet v k).truthy then jsGet v k else .obj []
      jsSet v k (setPathKeys child rest value)

/-- `setPathValue` from `MobxSaiFetch` (functional rendering of the
in-place mutation). -/
def setPathValue (obj : JsVal) (path : String) (value : JsVal) : JsVal :=
  setPathKeys obj (jsSplitOnDot path) value

/-- Lookup in a string-keyed association list. -/
def alistGet {α : Type} (m : List (String × α)) (k : String) : Option α :=
  (m.find? (fun p => p.1 = k)).map (fun p => p.2)

/-- Record/`Map` assignment `m[k] = v` / `Map.set`: replace the binding
or append a new one. -/
def alistSet {α : Type} (m : List (String × α)) (k : String) (v : α) : List (String × α) :=
  if m.any (fun p => p.1 = k) then
    m.map (fun p => if p.1 = k then (k, v) else p)
  else m ++ [(k, v)]

/-- `Map.delete`. -/
def alistDel {α : Type} (m : List (String × α)) (k : String) : List (String × α) :=
  m.filter (fun p => p.1 ≠ k)

/-! ## Validation schema (`ValidationSchema.validate`) -/

/-- What a validator returns in the source: `boolean | string`. -/
inductive VRes where
  | bool (b : Bool) : VRes
  | str (s : String) : VRes
deriving DecidableEq

/-- A validator `(value, allValues) => boolean | string`; `validate` calls
each one as `validate(values[field], values)`. -/
def Validator : Type := JsVal → List (String × JsVal) → VRes

/-- `values[field]` on the record of form values (`undefined` when absent). -/
def lookupVal (values : List (String × JsVal)) (f : String) : JsVal :=
  ((values.find? (fun p => p.1 = f)).map (fun p => p.2)).getD .undefined

/-- The inner loop of `validate` for one field: run the validators in
order and stop at the first result that is not `true`, yielding that
validator's message (or the default `Invalid value for <field>` when the
failing result is a non-string). -/
def runFieldValidators (field : String) (vs : List Validator) (value : JsVal)
    (values : List (String × JsVal)) : Option String :=
  match vs with
  | [] => none
  | v :: rest =>
      match v value values with
      | .bool true => runFieldValidators field rest value values
      | .bool false => some ("Invalid value for " ++ field)
      | .str s => some s

/-- One iteration of the outer `for field in this.validators` loop of
`validate`: on the first failing validator the success flag drops and
`errors[field + 'Err']` is assigned. -/
def validateStep (values : List (String × JsVal)) (acc : Bool × List (String × String))
    (fv : String × List Validator) : Bool × List (String × String) :=
  match runFieldValidators fv.1 fv.2 (lookupVal values fv.1) values with
  | none => acc
  | some msg => (false, alistSet acc.2 (fv.1 ++ "Err") msg)

/-- `ValidationSchema.validate(values)`: fields in registration order,
within a field validators run in order with a `break` at the first
failure. -/
def validate (validators : List (String × List Validator))
    (values : List (String × JsVal)) : Bool × List (String × String) :=
  validators.foldl (validateStep values) (true, [])

/-- A validator that always fails with message `m` (the spec's
`alwaysFails`), used to instantiate the short-circuit property. -/
def alwaysFails (m : String) : Validator := fun _ _ => .str m

/-! ## Debounce group manager (`MobxDebouncer`) -/

/-- A `setTimeout` timer: its id, the composite action key its callback
closes over, and whether it is still armed (`clearTimeout` disarms). -/
structure Timer where
  id : Nat
  actionKey : String
  active : Bool
deriving DecidableEq

/-- The debouncer's state plus the timer environment and an execution log.
`debouncedActions` maps a composite key to `{timerId, pendingActions}`;
`actionRegistry` maps it to the registered callback set (callbacks are
identified by numeric ids); `executed` records every callback run. -/
structure DebWorld where
  debouncedActions : List (String × (Nat × List Nat)) := []
  actionRegistry : List (String × List Nat) := []
  timers : List Timer := []
  nextTimerId : Nat := 0
  executed : List Nat := []

/-- `clearTimeout(tid)`: disarm the timer with that id. -/
def clearTimeout (ts : List Timer) (tid : Nat) : List Timer :=
  ts.map (fun t => if t.id = tid then { t with active := false } else t)

/-- `mobxDebouncer.debouncedAction(key, action, delay, groupKey)`:
composite key `groupKey + "_" + key`; the registry entry is replaced by
the singleton set of the new callback, the pending timer (if any) is
cleared, and a fresh timer is armed. -/
def debouncedAction (key : String) (action : Nat) (groupKey : String)
    (w : DebWorld) : DebWorld :=
  let actionKey := groupKey ++ "_" ++ key
  let registry := alistSet w.actionRegistry actionKey [action]
  let timers :=
    match alistGet w.debouncedActions actionKey with
    | some (tid, _) => clearTimeout w.timers tid
    | none => w.timers
  let timerId := w.nextTimerId
  { w with
    actionRegistry := registry
    timers := timers ++ [⟨timerId, actionKey, true⟩]
    nextTimerId := timerId + 1
    debouncedActions := alistSet w.debouncedActions actionKey (timerId, [action]) }

/-- Expiry of the timer with id `tid`: if the timer is still armed, its
callback runs — it executes every action registered for the composite key,
then deletes the registry entry and the `debouncedActions` entry. A fired
timer is disarmed. Firing a cleared timer is a no-op. -/
def fireTimer (w : DebWorld) (tid : Nat) : DebWorld :=
  match w.timers.find? (fun t => t.id = tid && t.active) with
  | none => w
  | some t =>
      let w := { w with timers := clearTimeout w.timers tid }
      match alistGet w.actionRegistry t.actionKey with
      | some acts =>
          { w with
            executed := w.executed ++ acts
            actionRegistry := alistDel w.actionRegistry t.actionKey
            debouncedActions := alistDel w.debouncedActions t.actionKey }
      | none =>
          { w with debouncedActions := alistDel w.debouncedActions t.actionKey }

/-- `key.startsWith(pre)`, modelled over the underlying character lists
(`String.startsWith` itself does not reduce definitionally in this
toolchain; this is extensionally the same test). -/
def strStartsWith (s pre : String) : Bool := pre.data.isPrefixOf s.data

/-- `mobxDebouncer.cancelDebouncedActionsByGroup(groupKey)`: walk the
`debouncedActions` entries, clear the timer of every entry whose composite
key starts with `groupKey + "_"`, and delete those keys from both maps. -/
def cancelDebouncedActionsByGroup (groupKey : String) (w : DebWorld) : DebWorld :=
  let keysToDelete :=
    (w.debouncedActions.filter (fun p => strStartsWith p.1 (groupKey ++ "_"))).map (fun p => p.1)
  let timers := w.debouncedActions.foldl
    (fun ts p => if strStartsWith p.1 (groupKey ++ "_") then clearTimeout ts p.2.1 else ts)
    w.timers
  { w with
    timers := timers
    actionRegistry := keysToDelete.foldl (fun m k => alistDel m k) w.actionRegistry
    debouncedActions := keysToDelete.foldl (fun m k => alistDel m k) w.debouncedActions }

/-! ## Fetch orchestrator options (`MobxSaiFetchOptions`)

Option records model TypeScript `Partial` objects: every field is wrapped
in an outer `Option` meaning key *presence* (`none` = key absent, i.e.
`undefined` under spread), and nullable fields carry an inner `Option`
whose `none` is JS `null`.  Callback-valued fields are modelled by their
truthiness (`Bool`: is a function attached). -/

/-- `cacheSystem` options. -/
structure CacheSystemOpts where
  limit : Option (Option Int) := none
  setCache : Option Bool := none
deriving DecidableEq

/-- `dataScope` options. `cls` is the source's `class` key (a Lean
keyword); `scrollRef`/`onScroll` are modelled by truthiness. -/
structure DataScopeOpts where
  cls : Option (Option String) := none
  startFrom : Option String := none
  scrollRef : Option Bool := none
  onScroll : Option Bool := none
  topPercentage : Option (Option Int) := none
  botPercentage : Option (Option Int) := none
  relativeParamsKey : Option (Option String) := none
  upOrDownParamsKey : Option (Option String) := none
  isHaveMoreResKey : Option (Option String) := none
  howMuchGettedToTop : Option Int := none
  setParams : Option Bool := none
deriving DecidableEq

/-- `fetchAddTo` options. -/
structure FetchAddToOpts where
  path : Option (Option String) := none
  addTo : Option String := none
  isSetReversedArr : Option (Option Bool) := none
  isSetPrevArr : Option (Option Bool) := none
  setArrCallback : Option Bool := none
deriving DecidableEq

/-- `MobxSaiFetchOptions` (usable both as the full record and as a
`Partial` argument, as in the source where every key may be absent).
`page` is the linked external page counter, modelled by its truthiness. -/
structure SaiOptions where
  id : Option (Option String) := none
  page : Option Bool := none
  pageSetterName : Option (Option String) := none
  isFetchUp : Option Bool := none
  fetchType : Option String := none
  fetchIfPending : Option Bool := none
  fetchIfHaveData : Option Bool := none
  isSetData : Option Bool := none
  needPending : Option Bool := none
  cacheSystem : Option CacheSystemOpts := none
  dataScope : Option DataScopeOpts := none
  fetchAddTo : Option FetchAddToOpts := none
deriving DecidableEq

/-- The module-level `defaultOptions` object.  Note that its `dataScope`
carries no `scrollRef`/`onScroll` keys. -/
def defaultOptions : SaiOptions where
  id := some (some "default")
  page := some false
  pageSetterName := some none
  isFetchUp := some false
  fetchType := some "default"
  fetchIfPending := some false
  fetchIfHaveData := some true
  isSetData := some true
  needPending := some true
  cacheSystem := some { limit := some none, setCache := some true }
  dataScope := some
    { cls := some none
      startFrom := some "top"
      topPercentage := some none
      botPercentage := some none
      relativeParamsKey := some none
      setParams := some false
      upOrDownParamsKey := some none
      isHaveMoreResKey := some none
      howMuchGettedToTop := some 2 }
  fetchAddTo := some
    { path := some (some "")
      addTo := some "reset"
      isSetReversedArr := some (some false)
      isSetPrevArr := some (some false)
      setArrCallback := some false }

/-- Object spread `{...a, ...b}` on `cacheSystem`: a key of `b` wins when
present. -/
def spreadCS (a b : CacheSystemOpts) : CacheSystemOpts where
  limit := b.limit <|> a.limit
  setCache := b.setCache <|> a.setCache

/-- Spread on `dataScope`. -/
def spreadDS (a b : DataScopeOpts) : DataScopeOpts where
  cls := b.cls <|> a.cls
  startFrom := b.startFrom <|> a.startFrom
  scrollRef := b.scrollRef <|> a.scrollRef
  onScroll := b.onScroll <|> a.onScroll
  topPercentage := b.topPercentage <|> a.topPercentage
  botPercentage := b.botPercentage <|> a.botPercentage
  relativeParamsKey := b.relativeParamsKey <|> a.relativeParamsKey
  upOrDownParamsKey := b.upOrDownParamsKey <|> a.upOrDownParamsKey
  isHaveMoreResKey := b.isHaveMoreResKey <|> a.isHaveMoreResKey
  howMuchGettedToTop := b.howMuchGettedToTop <|> a.howMuchGettedToTop
  setParams := b.setParams <|> a.setParams

/-- Spread on `fetchAddTo`. -/
def spreadFA (a b : FetchAddToOpts) : FetchAddToOpts where
  path := b.path <|> a.path
  addTo := b.addTo <|> a.addTo
  isSetReversedArr := b.isSetReversedArr <|> a.isSetReversedArr
  isSetPrevArr := b.isSetPrevArr <|> a.isSetPrevArr
  setArrCallback := b.setArrCallback <|> a.setArrCallback

/-- Top-level spread `{...a, ...b}` on the options record (shallow: the
whole `cacheSystem`/`dataScope`/`fetchAddTo` objects are replaced). -/
def spreadOpts (a b : SaiOptions) : SaiOptions where
  id := b.id <|> a.id
  page := b.page <|> a.page
  pageSetterName := b.pageSetterName <|> a.pageSetterName
  isFetchUp := b.isFetchUp <|> a.isFetchUp
  fetchType := b.fetchType <|> a.fetchType
  fetchIfPending := b.fetchIfPending <|> a.fetchIfPending
  fetchIfHaveData := b.fetchIfHaveData <|> a.fetchIfHaveData
  isSetData := b.isSetData <|> a.isSetData
  needPending := b.needPending <|> a.needPending
  cacheSystem := b.cacheSystem <|> a.cacheSystem
  dataScope := b.dataScope <|> a.dataScope
  fetchAddTo := b.fetchAddTo <|> a.fetchAddTo

/-- The options rebuild used both by the `MobxSaiFetch` constructor and by
the cache-hit branch of the `mobxSaiFetch` factory:
`{...old, ...defaultOptions, ...new, cacheSystem: {...old.cacheSystem,
...defaultOptions.cacheSystem, ...new.cacheSystem}, dataScope: {...},
fetchAddTo: {...}}` (spreading an absent sub-object behaves as `{}`). -/
def mergeOptions (old new : SaiOptions) : SaiOptions :=
  let top := spreadOpts (spreadOpts old defaultOptions) new
  { top with
    cacheSystem := some (spreadCS
      (spreadCS (old.cacheSystem.getD {}) (defaultOptions.cacheSystem.getD {}))
      (new.cacheSystem.getD {}))
    dataScope := some (spreadDS
      (spreadDS (old.dataScope.getD {}) (defaultOptions.dataScope.getD {}))
      (new.dataScope.getD {}))
    fetchAddTo := some (spreadFA
      (spreadFA (old.fetchAddTo.getD {}) (defaultOptions.fetchAddTo.getD {}))
      (new.fetchAddTo.getD {})) }

/-! Runtime read accessors with JS semantics: an absent key reads as
`undefined`, which is falsy; absent and `null` are collapsed where the
source only tests truthiness or compares (a comparison with
`undefined`/`NaN` is false, like one with `null` at these sites). -/

/-- `options.fetchIfPending` truthiness. -/
def SaiOptions.fetchIfPendingV (o : SaiOptions) : Bool := o.fetchIfPending.getD false

/-- `options.fetchIfHaveData` truthiness. -/
def SaiOptions.fetchIfHaveDataV (o : SaiOptions) : Bool := o.fetchIfHaveData.getD false

/-- `options.isSetData` truthiness. -/
def SaiOptions.isSetDataV (o : SaiOptions) : Bool := o.isSetData.getD false

/-- `options.needPending` truthiness. -/
def SaiOptions.needPendingV (o : SaiOptions) : Bool := o.needPending.getD false

/-- `options.page` truthiness. -/
def SaiOptions.pageV (o : SaiOptions) : Bool := o.page.getD false

/-- `options.pageSetterName`, flattened (`none` = absent or null). -/
def SaiOptions.pageSetterNameV (o : SaiOptions) : Option String :=
  o.pageSetterName.getD none

/-- `options.isFetchUp` truthiness. -/
def SaiOptions.isFetchUpV (o : SaiOptions) : Bool := o.isFetchUp.getD false

/-- `options.cacheSystem` (an absent sub-object reads as `{}` here; after
the constructor merge it is always present). -/
def SaiOptions.csV (o : SaiOptions) : CacheSystemOpts := o.cacheSystem.getD {}

/-- `options.cacheSystem.limit`, flattened (`none` = null/absent, both
falsy and both degenerate the same way at the slice/splice call sites). -/
def SaiOptions.csLimitV (o : SaiOptions) : Option Int := o.csV.limit.getD none

/-- `options.cacheSystem.setCache` truthiness. -/
def SaiOptions.csSetCacheV (o : SaiOptions) : Bool := o.csV.setCache.getD false

/-- `options.dataScope`. -/
def SaiOptions.dsV (o : SaiOptions) : DataScopeOpts := o.dataScope.getD {}

/-- `options.dataScope.startFrom` (`none` = absent). -/
def SaiOptions.startFromV (o : SaiOptions) : Option String := o.dsV.startFrom

/-- `options.dataScope.topPercentage`, flattened. -/
def SaiOptions.topPercentageV (o : SaiOptions) : Option Int := o.dsV.topPercentage.getD none

/-- `options.dataScope.botPercentage`, flattened. -/
def SaiOptions.botPercentageV (o : SaiOptions) : Option Int := o.dsV.botPercentage.getD none

/-- `options.dataScope.relativeParamsKey`, flattened. -/
def SaiOptions.relativeParamsKeyV (o : SaiOptions) : Option String :=
  o.dsV.relativeParamsKey.getD none

/-- `options.dataScope.upOrDownParamsKey`, flattened. -/
def SaiOptions.upOrDownParamsKeyV (o : SaiOptions) : Option String :=
  o.dsV.upOrDownParamsKey.getD none

/-- `options.dataScope.isHaveMoreResKey`, flattened. -/
def SaiOptions.isHaveMoreResKeyV (o : SaiOptions) : Option String :=
  o.dsV.isHaveMoreResKey.getD none

/-- `options.dataScope.howMuchGettedToTop` (`none` = absent; arithmetic
and comparisons on it are `NaN`-like: every comparison is false). -/
def SaiOptions.howMuchV (o : SaiOptions) : Option Int := o.dsV.howMuchGettedToTop

/-- `options.dataScope.setParams` truthiness. -/
def SaiOptions.setParamsV (o : SaiOptions) : Bool := o.dsV.setParams.getD false

/-- `options.fetchAddTo`. -/
def SaiOptions.faV (o : SaiOptions) : FetchAddToOpts := o.fetchAddTo.getD {}

/-- `options.fetchAddTo.path`, flattened to a string (`""` for
null/absent: both are falsy at the `fetchAddTo.path &&` guards, and the
key is only used for access when truthy). -/
def SaiOptions.faPathV (o : SaiOptions) : String :=
  (o.faV.path.getD none).getD ""

/-- `options.fetchAddTo.addTo` (`none` = absent, which falls into the
switch's `default` arm like any non-`start`/`end` value). -/
def SaiOptions.faAddToV (o : SaiOptions) : Option String := o.faV.addTo

/-- `options.fetchAddTo.isSetReversedArr` truthiness. -/
def SaiOptions.faIsSetReversedArrV (o : SaiOptions) : Bool :=
  (o.faV.isSetReversedArr.getD none).getD false

/-- `options.fetchAddTo.isSetPrevArr` truthiness. -/
def SaiOptions.faIsSetPrevArrV (o : SaiOptions) : Bool :=
  (o.faV.isSetPrevArr.getD none).getD false

/-- `options.fetchAddTo.setArrCallback` truthiness. -/
def SaiOptions.faSetArrCallbackV (o : SaiOptions) : Bool :=
  o.faV.setArrCallback.getD false

/-- `options.id` destructured in the factory, flattened. -/
def SaiOptions.idV (o : SaiOptions) : Option String := o.id.getD none

/-- JS truthiness of an optional string (`""` is falsy). -/
def optStrTruthy : Option String → Bool
  | some s => s ≠ ""
  | none => false

/-! ## `MobxSaiFetch` instance state -/

/-- The mutable fields of a `MobxSaiFetch` instance (the class field
initializers are the defaults; note `status` starts at `"pending"` while
`isPending` starts `false`).  Errors are modelled by an identifying
string; the stored fetch thunk by its presence. -/
structure SaiState where
  isPending : Bool := false
  isFulfilled : Bool := false
  isRejected : Bool := false
  status : String := "pending"
  data : JsVal := .null
  error : Option String := none
  addedToEndCount : Int := 0
  addedToStartCount : Int := 0
  fetchedCount : Int := 0
  scrollProgress : Int := 0
  gettedToTop : Int := 0
  botStatus : String := ""
  topStatus : String := ""
  scrollCachedData : List JsVal := []
  isBotPending : Bool := false
  isBotRejected : Bool := false
  isBotFulfulled : Bool := false
  isTopPending : Bool := false
  isTopRejected : Bool := false
  isTopFulfulled : Bool := false
  topError : Option String := none
  botError : Option String := none
  isHaveMoreBot : Bool := true
  isHaveMoreTop : Bool := true
  oldOptions : Option SaiOptions := none
  promiseOrFunction : Bool := false
  options : SaiOptions := defaultOptions

/-- External collaborator state the instance writes through callbacks:
the `fetchAddTo.setArrCallback`-backed value, the `cacheSystem.setCache`-
backed value, and the `page` counter. -/
structure ExtState where
  extArr : JsVal := .arr []
  extCache : JsVal := .arr []
  extPage : Int := 0

/-- `setFulfilled`. -/
def setFulfilled (st : SaiState) : SaiState :=
  { st with isFulfilled := true, isPending := false, isRejected := false }

/-- `setRejected`. -/
def setRejected (st : SaiState) : SaiState :=
  { st with isRejected := true, isFulfilled := false, isPending := false }

/-- `setPending`. -/
def setPending (st : SaiState) : SaiState :=
  { st with isFulfilled := false, isPending := true, isRejected := false }

/-- `setTopPending`. -/
def setTopPending (st : SaiState) : SaiState :=
  { st with topStatus := "pending", isTopPending := true, isTopRejected := false,
            isTopFulfulled := false }

/-- `setTopRejected(err)`. -/
def setTopRejected (st : SaiState) (err : String) : SaiState :=
  { st with topError := some err, topStatus := "rejected", isTopPending := false,
            isTopRejected := true, isTopFulfulled := false }

/-- `setTopFulfilled`. -/
def setTopFulfilled (st : SaiState) : SaiState :=
  { st with topStatus := "fulfilled", isTopPending := false, isTopRejected := false,
            isTopFulfulled := true }

/-- `setBotPending`. -/
def setBotPending (st : SaiState) : SaiState :=
  { st with botStatus := "pending", isBotPending := true, isBotRejected := false,
            isBotFulfulled := false }

/-- `setBotRejected(err)`. -/
def setBotRejected (st : SaiState) (err : String) : SaiState :=
  { st with botError := some err, botStatus := "rejected", isBotPending := false,
            isBotRejected := true, isBotFulfulled := false }

/-- `setBotFulfilled`. -/
def setBotFulfilled (st : SaiState) : SaiState :=
  { st with botStatus := "fulfilled", isBotPending := false, isBotRejected := false,
            isBotFulfulled := true }

/-- `setFetchedCount('+')`. -/
def setFetchedCount (st : SaiState) : SaiState :=
  { st with fetchedCount := st.fetchedCount + 1 }

/-- `setAddedToStartCount('+')` (it also bumps `fetchedCount`). -/
def setAddedToStartCount (st : SaiState) : SaiState :=
  { setFetchedCount st with addedToStartCount := st.addedToStartCount + 1 }

/-- `setAddedToEndCount('+')` (it also bumps `fetchedCount`). -/
def setAddedToEndCount (st : SaiState) : SaiState :=
  { setFetchedCount st with addedToEndCount := st.addedToEndCount + 1 }

/-- The `MobxSaiFetch` constructor: the field initializers run first
(`this.options = defaultOptions`), then the options rebuild, then
(`setupScrollTracking` wires host scroll listeners only), and finally
`status` is forced to `"fulfilled"` when `needPending` is off. -/
def initState (options : SaiOptions) : SaiState :=
  let st : SaiState := {}
  let st := { st with options := mergeOptions st.options options }
  if !st.options.needPendingV then { st with status := "fulfilled" } else st

/-- The synchronous part of `MobxSaiFetch.fetch(promiseOrFunction,
fromWhere, fetchWhat)`: admission control and the primary pending/error
reset, up to and including the (possible) invocation of the thunk.
Returns the new state, whether the thunk was invoked, and the console
warnings emitted. -/
def fetchStart (st : SaiState) (fromWhere fetchWhat : Option String) :
    SaiState × Bool × List String :=
  let isHaveMoreBot := st.isHaveMoreBot
  let isHaveMoreTop := st.isHaveMoreTop
  let fetchIfPending := st.options.fetchIfPendingV
  let fetchIfHaveData := st.options.fetchIfHaveDataV
  let needPending := st.options.needPendingV
  if !fetchIfPending && st.isPending then
    (st, false, ["Fetch is already pending and fetchIfPending is false."])
  else if !fetchIfHaveData && st.data.truthy && decide (fromWhere = none) then
    (st, false, ["Data already exists and fetchIfHaveData is false."])
  else if decide (fetchWhat = some "bot") && !isHaveMoreBot then
    (st, false, ["Skipping BOT fetch because isHaveMoreBot is false"])
  else if decide (fetchWhat = some "top") && !isHaveMoreTop then
    (st, false, ["Skipping TOP fetch because isHaveMoreTop is false"])
  else
    let st :=
      if decide (fromWhere = none) && decide (fetchWhat = none) then
        let st := if needPending then { setPending st with status := "pending" } else st
        { st with error := none }
      else st
    (st, true, [])

/-- The `.catch` continuation of `fetch`: a primary failure sets the
primary axis and stores the error; a scroll-triggered failure only sets
the corresponding top/bot axis. -/
def fetchRejected (st : SaiState) (fromWhere fetchWhat : Option String)
    (err : String) : SaiState :=
  if decide (fromWhere = none) && decide (fetchWhat = none) then
    { setRejected st with status := "rejected", error := some err }
  else
    let st := if decide (fetchWhat = some "bot") then setBotRejected st err else st
    if decide (fetchWhat = some "top") then setTopRejected st err else st

/-- The `.finally` continuation of `fetch`: restore a saved options
snapshot (the snapshot itself is not cleared by the source). -/
def fetchFinally (st : SaiState) : SaiState :=
  match st.oldOptions with
  | some old => { st with options := old }
  | none => st

/-- Complete failure path of one fetch whose thunk rejected: the `.catch`
continuation followed by the `.finally` one.  It is a total function: the
rejection is consumed into state, never re-thrown to the caller of
`fetch`. -/
def fetchReject (st : SaiState) (fromWhere fetchWhat : Option String)
    (err : String) : SaiState :=
  fetchFinally (fetchRejected st fromWhere fetchWhat err)

/-! ## The `.then` continuation of `fetch` (success merge) -/

/-- `typeof v === "object" && v !== null`. -/
def jsTypeofObjectNonNull : JsVal → Bool
  | .arr _ => true
  | .obj _ => true
  | _ => false

/-- `k in result` for a string key. -/
def jsHasKey (v : JsVal) (k : String) : Bool :=
  match v with
  | .obj fields => fields.any (fun p => p.1 = k)
  | .arr items =>
      (match k.toNat? with
       | some i => i < items.length
       | none => k = "length")
  | _ => false

/-- The repeated guard
`isHaveMoreResKey && typeof result === 'object' && result !== null && isHaveMoreResKey in result`. -/
def hasMoreKeyIn (k : Option String) (result : JsVal) : Bool :=
  optStrTruthy k && jsTypeofObjectNonNull result &&
    (match k with
     | some s => jsHasKey result s
     | none => false)

/-- Array spread `[...v]` (throws on non-iterables; string iteration is
not modelled, no call site spreads a string). -/
def spreadE (v : JsVal) : Except String (List JsVal) :=
  match v with
  | .arr xs => .ok xs
  | _ => .error "TypeError: value is not iterable"

/-- `xs.splice(0, limit)` as the remaining list (`null`/`undefined`
delete count removes nothing). -/
def spliceDropFirst (xs : List JsVal) (limit : Option Int) : List JsVal :=
  match limit with
  | none => xs
  | some l => xs.drop l.toNat

/-- `[...xs.slice(0, -limit)]` (`-null` is `-0`, `-undefined` is `NaN`;
either way the slice is empty). -/
def sliceDropLast (xs : List JsVal) (limit : Option Int) : List JsVal :=
  match limit with
  | none => []
  | some l => jsSlice xs 0 (-l)

/-- `xs.slice(0, limit)` (`null` end yields the empty list; `limit` is
always a present key after the defaults merge, so `undefined` does not
arise here). -/
def sliceFirst (xs : List JsVal) (limit : Option Int) : List JsVal :=
  match limit with
  | none => []
  | some l => jsSlice xs 0 l

/-- `xs.slice(-limit)` (`-null` is `-0`, so a null limit keeps the whole
list). -/
def sliceLastJS (xs : List JsVal) (limit : Option Int) : List JsVal :=
  match limit with
  | none => xs
  | some l => jsSlice1 xs (-l)

/-- Lines 1070–1135 of the source: the paginated-list-growth branch of
the success merge (both `getPathValue(this.data, path)` and
`result[path]` are arrays).  `cap` is the state captured when `fetch` was
entered (the destructured `gettedToTop` and options), `st0` the live
state at completion.  Returns the state, the external callback state, and
whether the `isSetData` early `return` fired (skipping the page bump). -/
def mergeArrayBranch (cap st0 : SaiState) (ext0 : ExtState) (fetchWhat : Option String)
    (result0 : JsVal) : Except String (SaiState × ExtState × Bool) := do
  let gettedToTop := cap.gettedToTop
  let startFrom := cap.options.startFromV
  let howMuch := cap.options.howMuchV
  let faPath := cap.options.faPathV
  let faAddTo := cap.options.faAddToV
  let faRev := cap.options.faIsSetReversedArrV
  let faCb := cap.options.faSetArrCallbackV
  let mut st := st0
  let mut ext := ext0
  let mut result := result0
  -- SCROLL CACHE SYSTEM
  if (match howMuch with | some h => decide (gettedToTop ≤ -h) | none => false)
      && decide (startFrom = some "top") then
    st := { st with isHaveMoreTop := true }
    let target ← jsGetE st.data faPath
    if !target.isArr then throw "TypeError: splice/slice is not a function"
    if decide (fetchWhat = some "bot") then
      -- this.data[path].splice(0, this.options.cacheSystem.limit)
      let evicted := JsVal.arr (spliceDropFirst target.arrItems st.options.csLimitV)
      st := { st with data := jsSet st.data faPath evicted }
    else
      -- this.data[path] = [...this.data[path].slice(0, -limit)]
      let evicted := JsVal.arr (sliceDropLast target.arrItems st.options.csLimitV)
      st := { st with data := jsSet st.data faPath evicted }
  if decide (fetchWhat = some "bot") && decide (startFrom = some "top") then
    if (match howMuch with | some h => decide (gettedToTop = -h) | none => false) then
      -- cachedList = this.data[path].slice(0, limit), read AFTER the splice above
      let target ← jsGetE st.data faPath
      if !target.isArr then throw "TypeError: slice is not a function"
      st := { st with scrollCachedData := sliceFirst target.arrItems st.options.csLimitV }
  if decide (fetchWhat = some "top") && decide (startFrom = some "bot") then
    if (match howMuch with | some h => decide (gettedToTop = h) | none => false) then
      -- cachedList = this.data[path].slice(-limit)
      let target ← jsGetE st.data faPath
      if !target.isArr then throw "TypeError: slice is not a function"
      st := { st with scrollCachedData := sliceLastJS target.arrItems st.options.csLimitV }
  let targetArray := getPathValue st.data faPath
  match faAddTo with
  | some "start" =>
      st := setAddedToStartCount st
      if faCb then
        let rp := jsGet result faPath
        if faRev then
          -- prev => [...result[path], ...prev].reverse()
          let prevl ← spreadE ext.extArr
          ext := { ext with extArr := .arr ((rp.arrItems ++ prevl).reverse) }
        else
          -- prev => [...result[path].reverse(), ...prev]: reverses result[path] in place
          let prevl ← spreadE ext.extArr
          result := jsSet result faPath (.arr rp.arrItems.reverse)
          ext := { ext with extArr := .arr (rp.arrItems.reverse ++ prevl) }
      if !st.options.isSetDataV then return (st, ext, true)
      -- setPathValue(this.data, path, [...result[path], ...targetArray])
      let merged := JsVal.arr ((jsGet result faPath).arrItems ++ targetArray.arrItems)
      st := { st with data := setPathValue st.data faPath merged }
      return (st, ext, false)
  | some "end" =>
      st := setAddedToEndCount st
      if faCb then
        let rp := jsGet result faPath
        let prevl ← spreadE ext.extArr
        if faRev then
          ext := { ext with extArr := .arr ((prevl ++ rp.arrItems).reverse) }
        else
          ext := { ext with extArr := .arr (prevl ++ rp.arrItems) }
      if !st.options.isSetDataV then return (st, ext, true)
      let merged := JsVal.arr (targetArray.arrItems ++ (jsGet result faPath).arrItems)
      st := { st with data := setPathValue st.data faPath merged }
      return (st, ext, false)
  | _ =>
      -- case "reset": default:
      if faCb then
        if faPath ≠ "" then
          let rp := jsGet result faPath
          ext := { ext with extArr := if faRev then .arr rp.arrItems.reverse else rp }
        else
          ext := { ext with extArr := result }
      if !st.options.isSetDataV then return (st, ext, true)
      -- setPathValue(this.data, path, result): the WHOLE result object
      st := { st with data := setPathValue st.data faPath result }
      return (st, ext, false)

/-- Lines 1136–1162: the merge branch for a configured path whose data or
result side is not an array. -/
def mergeNonArrayBranch (cap st0 : SaiState) (ext0 : ExtState) (result0 : JsVal) :
    Except String (SaiState × ExtState × Bool) := do
  let faPath := cap.options.faPathV
  let faAddTo := cap.options.faAddToV
  let faRev := cap.options.faIsSetReversedArrV
  let faPrev := cap.options.faIsSetPrevArrV
  let faCb := cap.options.faSetArrCallbackV
  let mut st := setFetchedCount st0
  let mut ext := ext0
  let mut result := result0
  if faCb then
    if faPath ≠ "" then
      if faPrev then
        -- [...prev, ...[...result[path]]?.reverse()] and mirror (spread copies, no mutation)
        let prevl ← spreadE ext.extArr
        let rp ← jsGetE result faPath
        let rpl ← spreadE rp
        if faRev then
          ext := { ext with extArr := .arr (if decide (faAddTo = some "start")
            then prevl ++ rpl.reverse else rpl.reverse ++ prevl) }
        else
          ext := { ext with extArr := .arr (if decide (faAddTo = some "start")
            then prevl ++ rpl else rpl ++ prevl) }
      else
        if faRev then
          -- return result[path]?.reverse(): mutates result[path] when it is an array
          let rp ← jsGetE result faPath
          if rp.nullish then
            ext := { ext with extArr := .undefined }
          else if rp.isArr then
            result := jsSet result faPath (.arr rp.arrItems.reverse)
            ext := { ext with extArr := .arr rp.arrItems.reverse }
          else throw "TypeError: reverse is not a function"
        else
          let rp ← jsGetE result faPath
          ext := { ext with extArr := rp }
    else
      ext := { ext with extArr := result }
  if !st.options.isSetDataV then return (st, ext, true)
  st := { st with data := result }
  return (st, ext, false)

/-- Lines 1163–1212: the merge branch taken when no path is configured or
`this.data` is not an object; it also hosts the `setCache`-on-threshold
side effect.  JS aliasing caveat: `newList` aliases `result[path]`, so
each in-place `.reverse()` is threaded through both; the value passed to
`setCache` is snapshotted at call time. -/
def mergeNoPathBranch (cap st0 : SaiState) (ext0 : ExtState) (result0 : JsVal) :
    Except String (SaiState × ExtState × Bool) := do
  let faPath := cap.options.faPathV
  let faAddTo := cap.options.faAddToV
  let faRev := cap.options.faIsSetReversedArrV
  let faPrev := cap.options.faIsSetPrevArrV
  let faCb := cap.options.faSetArrCallbackV
  let mut st := setFetchedCount st0
  let mut ext := ext0
  let mut result := result0
  if faCb then
    if faPath ≠ "" then
      if faPrev then
        -- const arrCount = [...prev, ...[...result[path]]].length
        let prevl ← spreadE ext.extArr
        let rp ← jsGetE result faPath
        let rpl ← spreadE rp
        let arrCount : Int := ((prevl ++ rpl).length : Int)
        let newList : List JsVal :=
          if faRev then
            if decide (faAddTo = some "start") then prevl ++ rpl.reverse else rpl.reverse ++ prevl
          else
            if decide (faAddTo = some "start") then prevl ++ rpl else rpl ++ prevl
        -- if (limit) { if (arrCount >= limit && setCache) setCache(newList) }
        match st.options.csLimitV with
        | some l =>
            if l ≠ 0 && decide (arrCount ≥ l) && st.options.csSetCacheV then
              ext := { ext with extCache := .arr newList }
        | none => pure ()
        ext := { ext with extArr := .arr newList }
      else
        -- const newList = result[path]; const arrCount = newList?.length
        let rp ← jsGetE result faPath
        let mut cur := rp
        let arrCount : Option Int :=
          match rp with
          | .arr xs => some (xs.length : Int)
          | _ => none
        match st.options.csLimitV with
        | some l =>
            if l ≠ 0 && (match arrCount with | some c => decide (c ≥ l) | none => false)
                && st.options.csSetCacheV then
              -- setCache(isSetReversedArr ? newList?.reverse() : newList)
              if faRev then
                if cur.nullish then
                  ext := { ext with extCache := .undefined }
                else if cur.isArr then
                  cur := .arr cur.arrItems.reverse
                  result := jsSet result faPath cur
                  ext := { ext with extCache := cur }
                else throw "TypeError: reverse is not a function"
              else
                ext := { ext with extCache := cur }
        | none => pure ()
        if faRev then
          -- return newList?.reverse(): a second in-place reverse when the cache arm already reversed
          if cur.nullish then
            ext := { ext with extArr := .undefined }
          else if cur.isArr then
            cur := .arr cur.arrItems.reverse
            result := jsSet result faPath cur
            ext := { ext with extArr := cur }
          else throw "TypeError: reverse is not a function"
        else
          ext := { ext with extArr := cur }
    else
      ext := { ext with extArr := result }
  if !st.options.isSetDataV then return (st, ext, true)
  st := { st with data := result }
  return (st, ext, false)

/-- The `.then` continuation of `fetch` (lines 1044–1216): axis status
update, optional `isHaveMore` flag write, then the data merge, then the
page bump (skipped by the `isSetData` early returns).  `cap` carries the
values destructured when `fetch` was entered; `st0` is the live state at
completion; both coincide when the thunk settles without interleaving. -/
def fetchFulfilled (cap st0 : SaiState) (ext0 : ExtState)
    (fromWhere fetchWhat : Option String) (result0 : JsVal) :
    Except String (SaiState × ExtState × List String) := do
  let isHaveMoreResKey := cap.options.isHaveMoreResKeyV
  let faPath := cap.options.faPathV
  let mut st := st0
  let mut ext := ext0
  let mut console : List String := []
  let result := result0
  if decide (fromWhere = none) && decide (fetchWhat = none) then
    st := { setFulfilled st with status := "fulfilled" }
    if hasMoreKeyIn isHaveMoreResKey result then
      st := { st with isHaveMoreBot := (jsGet result (isHaveMoreResKey.getD "")).truthy }
  else
    if decide (fetchWhat = some "bot") then
      st := setBotFulfilled st
      if hasMoreKeyIn isHaveMoreResKey result then
        st := { st with isHaveMoreBot := (jsGet result (isHaveMoreResKey.getD "")).truthy }
      else
        console := console ++
          ["BOT FETCH: Can\x27t find isHaveMore from passed isHaveMoreResKey \x27result[isHaveMoreResKey]\x27"]
    if decide (fetchWhat = some "top") then
      st := setTopFulfilled st
      if hasMoreKeyIn isHaveMoreResKey result then
        st := { st with isHaveMoreTop := (jsGet result (isHaveMoreResKey.getD "")).truthy }
      else
        console := console ++
          ["TOP FETCH: Can\x27t find isHaveMore from passed isHaveMoreResKey \x27result[isHaveMoreResKey]\x27"]
  -- if (fetchAddTo && fetchAddTo.path && typeof this.data === "object" && this.data !== null)
  if faPath ≠ "" && jsTypeofObjectNonNull st.data then
    if (getPathValue st.data faPath).isArr then
      let rp ← jsGetE result faPath
      if rp.isArr then
        let (st', ext', early) ← mergeArrayBranch cap st ext fetchWhat result
        st := st'
        ext := ext'
        if early then return (st, ext, console)
      else
        let (st', ext', early) ← mergeNonArrayBranch cap st ext result
        st := st'
        ext := ext'
        if early then return (st, ext, console)
    else
      let (st', ext', early) ← mergeNonArrayBranch cap st ext result
      st := st'
      ext := ext'
      if early then return (st, ext, console)
  else
    let (st', ext', early) ← mergeNoPathBranch cap st ext result
    st := st'
    ext := ext'
    if early then return (st, ext, console)
  -- if (this.options.page && this.options.pageSetterName && !this.options.isFetchUp)
  if st.options.pageV && optStrTruthy st.options.pageSetterNameV && !st.options.isFetchUpV then
    ext := { ext with extPage := ext.extPage + 1 }
  return (st, ext, console)

/-- Complete success path of one fetch: the `.then` continuation followed
by the `.finally` one.  A throw inside `.then` would fall through to
`.catch` on the partially mutated instance; that path is outside the
claims and is left as `none` here. -/
def fetchResolve (cap st : SaiState) (ext : ExtState)
    (fromWhere fetchWhat : Option String) (result : JsVal) :
    Option (SaiState × ExtState × List String) :=
  match fetchFulfilled cap st ext fromWhere fetchWhat result with
  | .ok (st', ext', out) => some (fetchFinally st', ext', out)
  | .error _ => none

/-! ## `handleScrollUpdate` -/

/-- `Math.round(a / b * 100)` over integers (`b = 0`, which JS turns into
an infinity, does not occur at the call sites exercised here). -/
def jsRound100 (a b : Int) : Int :=
  if b = 0 then 0 else Int.fdiv (200 * a + b) (2 * b)

/-- Result of one `handleScrollUpdate` call: the instance state, the
external `setParams`-backed params value, the console output, and the
`(fromWhere, fetchWhat)` arguments of each `this.fetch` call it made. -/
structure ScrollResult where
  st : SaiState
  params : JsVal
  console : List String
  fetchCalls : List (String × String)

/-- `MobxSaiFetch.handleScrollUpdate(scrollTop, scrollHeight,
clientHeight)` (lines 887–994): entry destructuring, progress update, the
top trigger, then the bottom trigger.  Aborting `return`s leave the
function entirely (a top abort also skips the bottom trigger).  The
synchronous admission part of each `this.fetch` call is applied to the
state and the call recorded. -/
def handleScrollUpdate (st0 : SaiState) (params0 : JsVal)
    (scrollTop scrollHeight clientHeight : Int) : Except String ScrollResult := do
  -- entry destructuring: plain values are captured once, setters act on the live state
  let topPercentage := st0.options.topPercentageV
  let botPercentage := st0.options.botPercentageV
  let startFrom := st0.options.startFromV
  let gettedToTop := st0.gettedToTop
  let isHaveMoreBot := st0.isHaveMoreBot
  let isHaveMoreTop := st0.isHaveMoreTop
  let relativeParamsKey := st0.options.relativeParamsKeyV
  let upOrDownParamsKey := st0.options.upOrDownParamsKeyV
  let howMuch := st0.options.howMuchV
  let isTopPending := st0.isTopPending
  let isBotPending := st0.isBotPending
  let mut st := { st0 with
    scrollProgress := jsRound100 scrollTop (scrollHeight - clientHeight) }
  let mut params := params0
  let mut console : List String := []
  let mut calls : List (String × String) := []
  -- === FETCH TOP ===
  if (match topPercentage with
      | some t => decide (st.scrollProgress ≤ t)
      | none => false) && !isTopPending && isHaveMoreTop then
    if decide (startFrom = some "top") &&
        (match howMuch with | some h => decide (gettedToTop ≥ -(h - 1)) | none => false) then
      return ⟨st, params, console, calls⟩
    console := console ++ ["FETCH TOP"]
    -- setGettedToTop(p => { if ((p + 1) >= howMuch + 1) setIsHaveMoreBot(true); return p + 1 })
    let p := st.gettedToTop
    if (match howMuch with | some h => decide (p + 1 ≥ h + 1) | none => false) then
      st := { st with isHaveMoreBot := true }
    st := { st with gettedToTop := p + 1 }
    st := setTopPending st
    -- guard (line 921): aborts when this?.data?.[path]?.[0]?.id is TRUTHY,
    -- despite the warning text (the bottom trigger tests the negation)
    if (optGet (optIndex (optGet st.data st.options.faPathV) 0) "id").truthy then
      console := console ++ ["We can\x27t find your relative Id"]
      return ⟨st, params, console, calls⟩
    -- options snapshot and override
    let overridden := { st.options with
      isSetData := some true
      fetchAddTo := some { st.options.faV with addTo := some "start" } }
    st := { st with oldOptions := some st.options, options := overridden }
    -- this.options.dataScope.setParams(prev => ...): throws when setParams is nullish
    if !st.options.setParamsV then
      throw "TypeError: setParams is not a function"
    if optStrTruthy relativeParamsKey then
      -- newParams[rpk] = this.data[this.options.fetchAddTo.path][0].id (plain accesses)
      let a ← jsGetE st.data st.options.faPathV
      let b ← jsIndexE a 0
      let idv ← jsGetE b "id"
      params := jsSet params (relativeParamsKey.getD "") idv
    if optStrTruthy upOrDownParamsKey then
      params := jsSet params (upOrDownParamsKey.getD "") (.bool true)
    if st.promiseOrFunction then
      let (st', _inv, out) := fetchStart st (some "fromScroll") (some "top")
      st := st'
      console := console ++ out
      calls := calls ++ [("fromScroll", "top")]
  -- === FETCH BOT ===
  if (match botPercentage with
      | some b => decide (st.scrollProgress ≥ b)
      | none => false) && !isBotPending && st.data.truthy &&
      st.options.faPathV ≠ "" && (jsGet st.data st.options.faPathV).truthy &&
      st.options.setParamsV && isHaveMoreBot then
    if decide (startFrom = some "bot") &&
        (match howMuch with | some h => decide (gettedToTop ≤ h) | none => false) then
      return ⟨st, params, console, calls⟩
    console := console ++ ["FETCH BOT"]
    -- setGettedToTop(p => { if ((p - 1) <= howMuch - 1) setIsHaveMoreTop(true); return p - 1 })
    let p := st.gettedToTop
    if (match howMuch with | some h => decide (p - 1 ≤ h - 1) | none => false) then
      st := { st with isHaveMoreTop := true }
    st := { st with gettedToTop := p - 1 }
    st := setBotPending st
    -- guard: !this.data[path][this.data[path]?.length - 1].id
    let arrv ← jsGetE st.data st.options.faPathV
    let lastElt ← jsIndexE arrv ((arrv.arrItems.length : Int) - 1)
    let idv ← jsGetE lastElt "id"
    if !idv.truthy then
      console := console ++ ["We can\x27t find your relative Id"]
      return ⟨st, params, console, calls⟩
    let overridden := { st.options with
      isSetData := some true
      fetchAddTo := some { st.options.faV with addTo := some "end" } }
    st := { st with oldOptions := some st.options, options := overridden }
    -- setParams presence was part of the branch condition
    if optStrTruthy relativeParamsKey then
      let a ← jsGetE st.data st.options.faPathV
      let b ← jsIndexE a ((a.arrItems.length : Int) - 1)
      let idv2 ← jsGetE b "id"
      params := jsSet params (relativeParamsKey.getD "") idv2
    if optStrTruthy upOrDownParamsKey then
      params := jsSet params (upOrDownParamsKey.getD "") (.bool false)
    if st.promiseOrFunction then
      let (st', _inv, out) := fetchStart st (some "fromScroll") (some "bot")
      st := st'
      console := console ++ out
      calls := calls ++ [("fromScroll", "bot")]
  return ⟨st, params, console, calls⟩

/-! ## The `mobxSaiFetch` factory and its id-keyed cache -/

/-- Shape of the factory's first argument. -/
inductive PromiseOrFn where
  | promiseV : PromiseOrFn
  | fnV : PromiseOrFn
  | invalid : PromiseOrFn
deriving DecidableEq

/-- The module-level `fetchCache` plus the instance heap; cache entries
map an id to a heap index, so reference identity is index identity. -/
structure FactoryState where
  heap : List SaiState := []
  cache : List (String × Nat) := []

/-- What a factory call returns: a reference to a live instance, or the
transient `{...instance, data: {...instance.data, [path]: cachedArr}}`
snapshot object built over instance `i` (its `data` replacement is
recorded). -/
inductive FactoryRet where
  | ref (i : Nat) : FactoryRet
  | snap (i : Nat) (snapData : JsVal) : FactoryRet

/-- Full outcome of a factory call. -/
structure FactoryOut where
  fs : FactoryState
  ext : ExtState
  ret : FactoryRet
  invoked : Bool
  console : List String

/-- The own enumerable fields of a value under object spread
(`{...v}`; falsy primitives and nullish values contribute nothing). -/
def objFieldsOf : JsVal → List (String × JsVal)
  | .obj fields => fields
  | _ => []

/-- `mobxSaiFetch(promiseOrFunction, options)` (lines 1849–1932): cache
hit rebuilds the instance's options, runs admission guards, the optional
page-down bump, the cache-snapshot short-circuit, and otherwise stores
the thunk and calls `instance.fetch`; cache miss constructs a new
instance, calls `fetch`, and registers the id.  Throws on an invalid
first argument. -/
def mobxSaiFetch (pf : PromiseOrFn) (options : SaiOptions)
    (fs : FactoryState) (ext0 : ExtState) : Except String FactoryOut := do
  let id := options.idV
  let fetchIfPending := options.fetchIfPending.getD false
  let fetchIfHaveData := options.fetchIfHaveData.getD true
  let idTruthy := optStrTruthy id
  match (if idTruthy then alistGet fs.cache (id.getD "") else none) with
  | some idx =>
      let inst := (fs.heap.get? idx).getD {}
      let isPending := inst.isPending
      let data := inst.data
      let inst1 := { inst with options := mergeOptions inst.options options }
      let fs1 : FactoryState := { fs with heap := fs.heap.set idx inst1 }
      if !fetchIfPending && isPending then
        return { fs := fs1, ext := ext0, ret := .ref idx, invoked := false,
                 console := ["Fetch is already pending and fetchIfPending is false."] }
      if !fetchIfHaveData && data.truthy then
        return { fs := fs1, ext := ext0, ret := .ref idx, invoked := false,
                 console := ["Data already exists and fetchIfHaveData is false."] }
      let mut ext := ext0
      if options.pageV && optStrTruthy options.pageSetterNameV && options.isFetchUpV then
        ext := { ext with extPage := ext.extPage - 1 }
      -- `if (instance.fetch)`: the method always exists on a constructed instance
      if options.csSetCacheV && !data.truthy &&
          (match options.csLimitV with | some l => decide (l ≠ 0) | none => false) then
        let limit := options.csLimitV.getD 0
        -- var cachedArr = []; setCache(prev => {...}) reads the external collection
        let prev := ext.extCache
        let prevLen : Option Int :=
          match prev with
          | .arr xs => some (xs.length : Int)
          | _ => none
        let cachedArr : JsVal :=
          if decide (prevLen = some 0) ||
              (match prevLen with | some n => decide (n < limit) | none => false) then
            .arr []
          else prev
        -- if (cachedArr?.length != 0): loose !=, true when length is undefined
        let clNonZero : Bool :=
          match cachedArr with
          | .arr xs => decide (xs.length ≠ 0)
          | _ => true
        if clNonZero then
          -- { ...instance, data: { ...instance?.data, [options.fetchAddTo.path]: cachedArr } }
          match options.fetchAddTo with
          | none => throw "TypeError: cannot read properties of undefined"
          | some fa =>
              let key := match fa.path with
                | none => "undefined"
                | some none => "null"
                | some (some p) => p
              let snapData := jsSet (.obj (objFieldsOf inst1.data)) key cachedArr
              return { fs := fs1, ext := ext, ret := .snap idx snapData,
                       invoked := false, console := [] }
      -- instance.setPromiseOrFunction(promiseOrFunction); instance.fetch(promiseOrFunction)
      let inst2 := { inst1 with promiseOrFunction := true }
      let (inst3, inv, out) := fetchStart inst2 none none
      return { fs := { fs with heap := fs.heap.set idx inst3 }, ext := ext,
               ret := .ref idx, invoked := inv, console := out }
  | none =>
      -- const instance = new MobxSaiFetch(options)
      let inst := initState options
      match pf with
      | .invalid => throw "Invalid argument passed to mobxSaiFetch."
      | _ =>
          let inst := { inst with promiseOrFunction := true }
          let (inst1, inv, out) := fetchStart inst none none
          let idx := fs.heap.length
          let cache1 := if idTruthy then alistSet fs.cache (id.getD "") idx else fs.cache
          return { fs := { heap := fs.heap ++ [inst1], cache := cache1 }, ext := ext0,
                   ret := .ref idx, invoked := inv, console := out }

/-! ## Concrete instances used to evaluate the claims -/

/-- Options of the C5 scenario: a scroller wired for top fetches
(`topPercentage = 20`), scroll origin `bot` so the top trigger's
displacement gate does not fire, `setParams` attached, list at `items`. -/
def c5Opts : SaiOptions where
  dataScope := some
    { startFrom := some "bot"
      topPercentage := some (some 20)
      setParams := some true }
  fetchAddTo := some { path := some (some "items") }

/-- C5 instance whose first `items` element has an identifiable id. -/
def c5StWithId : SaiState :=
  { initState c5Opts with
      data := .obj [("items", .arr [.obj [("id", .num 5)]])]
      promiseOrFunction := true }

/-- C5 instance whose first `items` element has no id key. -/
def c5StNoId : SaiState :=
  { initState c5Opts with
      data := .obj [("items", .arr [.obj [("text", .str "hello")]])]
      promiseOrFunction := true }

/-- Options of the C1 scenario: `cacheSystem.limit = 10`,
`startFrom = "top"` (and the default `howMuchGettedToTop = 2`), merging
bottom growth at `items` (`addTo` is `"end"` during a bottom scroll
fetch). -/
def c1Opts : SaiOptions where
  cacheSystem := some { limit := some (some 10) }
  dataScope := some { startFrom := some "top" }
  fetchAddTo := some { path := some (some "items"), addTo := some "end" }

/-- Twenty list items with ids 0..19 (id order = age order, oldest
first). -/
def c1Items : List JsVal := (List.range 20).map (fun i => .obj [("id", .num i)])

/-- The incoming page of the C1 bottom fetch. -/
def c1NewItems : List JsVal := [.obj [("id", .num 100)], .obj [("id", .num 101)]]

/-- C1 instance at the displacement boundary `gettedToTop = -2`. -/
def c1St : SaiState :=
  { initState c1Opts with
      data := .obj [("items", .arr c1Items)]
      gettedToTop := -2
      isHaveMoreTop := false
      promiseOrFunction := true }

/-- The successful result of the C1 bottom fetch. -/
def c1Result : JsVal := .obj [("items", .arr c1NewItems)]

/-- Options for observing the direction of the top trigger's displacement
update. -/
def c1TopOpts : SaiOptions where
  cacheSystem := some { limit := some (some 10) }
  dataScope := some
    { startFrom := some "top"
      topPercentage := some (some 20)
      setParams := some true }
  fetchAddTo := some { path := some (some "items") }

/-- An instance at `gettedToTop = -3` about to take a top-triggered
fetch. -/
def c1TopSt : SaiState :=
  { initState c1TopOpts with
      data := .obj [("items", .arr [.obj [("text", .str "x")]])]
      gettedToTop := -3
      promiseOrFunction := true }

/-- First C2 call: creates the cached instance (no pending state so the
second call passes admission; a cached `addTo = "end"` to observe the
rebuild). -/
def c2o1 : SaiOptions where
  id := some (some "a")
  needPending := some false
  fetchAddTo := some { path := some (some "items"), addTo := some "end" }

/-- Second C2 call: same id, a cache system configured so the snapshot
short-circuit fires. -/
def c2o2 : SaiOptions where
  id := some (some "a")
  cacheSystem := some { limit := some (some 1), setCache := some true }
  fetchAddTo := some { path := some (some "items") }

/-- External cache collection holding one item (at least `limit`). -/
def c2ext : ExtState := { extCache := .arr [.num 7] }

/-- Outcome of the first C2 call (a cache miss creating heap slot 0). -/
def c2run1 : FactoryOut :=
  match mobxSaiFetch .fnV c2o1 {} {} with
  | .ok o => o
  | .error _ => { fs := {}, ext := {}, ret := .ref 0, invoked := false, console := [] }

/-- Outcome of the second C2 call (a cache hit that takes the snapshot
short-circuit). -/
def c2run2 : FactoryOut :=
  match mobxSaiFetch .fnV c2o2 c2run1.fs c2ext with
  | .ok o => o
  | .error _ => { fs := {}, ext := {}, ret := .ref 0, invoked := false, console := [] }

/-- A cached instance's options carrying a `dataScope.scrollRef` from an
earlier call (C10). -/
def c10Cached : SaiOptions :=
  mergeOptions defaultOptions { dataScope := some { scrollRef := some true } }

/-! # Theorems

Generic lemmas about the association-list primitives, then one theorem
(plus witness or counterexample) per claim. -/

theorem alistGet_cons_eq {α : Type} (a : String × α) (m : List (String × α))
    (k : String) (h : a.1 = k) : alistGet (a :: m) k = some a.2 := by
  simp [alistGet, List.find?, h]

theorem alistGet_cons_ne {α : Type} (a : String × α) (m : List (String × α))
    (k : String) (h : a.1 ≠ k) : alistGet (a :: m) k = alistGet m k := by
  simp [alistGet, List.find?, h]

theorem alistGet_map_replace_ne {α : Type} (m : List (String × α)) (k k' : String)
    (v : α) (h : k' ≠ k) :
    alistGet (m.map (fun p => if p.1 = k then (k, v) else p)) k' = alistGet m k' := by
  induction m with
  | nil => rfl
  | cons a m ih =>
    by_cases ha : a.1 = k
    · rw [List.map_cons, if_pos ha, alistGet_cons_ne ((k, v)) _ k' (Ne.symm h),
        alistGet_cons_ne a m k' (by rw [ha]; exact Ne.symm h)]
      exact ih
    · by_cases ha' : a.1 = k'
      · rw [List.map_cons, if_neg ha, alistGet_cons_eq _ _ _ ha', alistGet_cons_eq _ _ _ ha']
      · rw [List.map_cons, if_neg ha, alistGet_cons_ne _ _ _ ha', alistGet_cons_ne _ _ _ ha']
        exact ih

theorem alistGet_map_replace_self {α : Type} (m : List (String × α)) (k : String)
    (v : α) (h : m.any (fun p => p.1 = k) = true) :
    alistGet (m.map (fun p => if p.1 = k then (k, v) else p)) k = some v := by
  induction m with
  | nil => simp at h
  | cons a m ih =>
    by_cases ha : a.1 = k
    · rw [List.map_cons, if_pos ha, alistGet_cons_eq _ _ _ rfl]
    · rw [List.map_cons, if_neg ha, alistGet_cons_ne _ _ _ ha]
      apply ih
      rw [List.any_cons] at h
      rcases Bool.or_eq_true_iff.mp h with h1 | h2
      · exact absurd (of_decide_eq_true h1) ha
      · exact h2

theorem alistGet_append_single_ne {α : Type} (m : List (String × α)) (k k' : String)
    (v : α) (h : k' ≠ k) : alistGet (m ++ [(k, v)]) k' = alistGet m k' := by
  induction m with
  | nil => simp [alistGet, List.find?, Ne.symm h]
  | cons a m ih =>
    by_cases ha : a.1 = k'
    · rw [List.cons_append, alistGet_cons_eq _ _ _ ha, alistGet_cons_eq _ _ _ ha]
    · rw [List.cons_append, alistGet_cons_ne _ _ _ ha, alistGet_cons_ne _ _ _ ha]
      exact ih

theorem alistGet_append_single_self {α : Type} (m : List (String × α)) (k : String)
    (v : α) (h : m.any (fun p => p.1 = k) = false) :
    alistGet (m ++ [(k, v)]) k = some v := by
  induction m with
  | nil => simp [alistGet, List.find?]
  | cons a m ih =>
    rw [List.any_cons] at h
    rcases Bool.or_eq_false_iff.mp h with ⟨h1, h2⟩
    have ha : a.1 ≠ k := fun hk => by simp [hk] at h1
    rw [List.cons_append, alistGet_cons_ne _ _ _ ha]
    exact ih h2

theorem alistGet_set_self {α : Type} (m : List (String × α)) (k : String) (v : α) :
    alistGet (alistSet m k v) k = some v := by
  unfold alistSet
  by_cases h : m.any (fun p => p.1 = k)
  · rw [if_pos h]
    exact alistGet_map_replace_self m k v h
  · rw [if_neg h]
    exact alistGet_append_single_self m k v (Bool.eq_false_iff.mpr h)

theorem alistGet_set_ne {α : Type} (m : List (String × α)) (k k' : String) (v : α)
    (h : k' ≠ k) : alistGet (alistSet m k v) k' = alistGet m k' := by
  unfold alistSet
  by_cases h2 : m.any (fun p => p.1 = k)
  · rw [if_pos h2]
    exact alistGet_map_replace_ne m k k' v h
  · rw [if_neg h2]
    exact alistGet_append_single_ne m k k' v h

theorem alistDel_cons_eq {α : Type} (a : String × α) (m : List (String × α))
    (k : String) (h : a.1 = k) : alistDel (a :: m) k = alistDel m k := by
  simp [alistDel, List.filter_cons, h]

theorem alistDel_cons_ne {α : Type} (a : String × α) (m : List (String × α))
    (k : String) (h : a.1 ≠ k) : alistDel (a :: m) k = a :: alistDel m k := by
  simp [alistDel, List.filter_cons, h]

theorem alistGet_del_self {α : Type} (m : List (String × α)) (k : String) :
    alistGet (alistDel m k) k = none := by
  induction m with
  | nil => rfl
  | cons a m ih =>
    by_cases ha : a.1 = k
    · rw [alistDel_cons_eq _ _ _ ha]
      exact ih
    · rw [alistDel_cons_ne _ _ _ ha, alistGet_cons_ne _ _ _ ha]
      exact ih

theorem alistGet_del_ne {α : Type} (m : List (String × α)) (k k' : String)
    (h : k' ≠ k) : alistGet (alistDel m k) k' = alistGet m k' := by
  induction m with
  | nil => rfl
  | cons a m ih =>
    by_cases ha : a.1 = k
    · rw [alistDel_cons_eq _ _ _ ha, alistGet_cons_ne _ _ _ (by rw [ha]; exact Ne.symm h)]
      exact ih
    · by_cases ha' : a.1 = k'
      · rw [alistDel_cons_ne _ _ _ ha, alistGet_cons_eq _ _ _ ha', alistGet_cons_eq _ _ _ ha']
      · rw [alistDel_cons_ne _ _ _ ha, alistGet_cons_ne _ _ _ ha', alistGet_cons_ne _ _ _ ha']
        exact ih

theorem alistGet_foldl_del_not_mem {α : Type} (ks : List String)
    (m : List (String × α)) (key : String) (h : key ∉ ks) :
    alistGet (ks.foldl (fun m k => alistDel m k) m) key = alistGet m key := by
  induction ks generalizing m with
  | nil => rfl
  | cons k ks ih =>
    simp only [List.foldl_cons]
    rw [ih _ (fun hk => h (List.mem_cons_of_mem _ hk))]
    exact alistGet_del_ne m k key (fun hkk => h (hkk ▸ List.mem_cons_self _ _))

theorem alistGet_foldl_del_none {α : Type} (ks : List String)
    (m : List (String × α)) (key : String) (h : alistGet m key = none) :
    alistGet (ks.foldl (fun m k => alistDel m k) m) key = none := by
  induction ks generalizing m with
  | nil => exact h
  | cons k ks ih =>
    simp only [List.foldl_cons]
    apply ih
    by_cases hk : key = k
    · subst hk; exact alistGet_del_self m key
    · rw [alistGet_del_ne m k key hk]; exact h

theorem alistGet_foldl_del_mem {α : Type} (ks : List String)
    (m : List (String × α)) (key : String) (h : key ∈ ks) :
    alistGet (ks.foldl (fun m k => alistDel m k) m) key = none := by
  induction ks generalizing m with
  | nil => cases h
  | cons k ks ih =>
    simp only [List.foldl_cons]
    by_cases hk : key = k
    · subst hk
      exact alistGet_foldl_del_none ks _ key (alistGet_del_self m key)
    · exact ih _ (by rcases List.mem_cons.mp h with h1 | h2; exact absurd h1 hk; exact h2)

theorem alistGet_eq_none_of_not_mem_keys {α : Type} (m : List (String × α))
    (k : String) (h : k ∉ m.map Prod.fst) : alistGet m k = none := by
  induction m with
  | nil => rfl
  | cons a m ih =>
    simp only [List.map_cons, List.mem_cons, not_or] at h
    have : ¬ a.1 = k := fun ha => h.1 ha.symm
    simpa [alistGet, List.find?, this] using ih h.2

/-! ## Claim C9: validator short-circuit -/

theorem lookup_foldl_validateStep_ne (values : List (String × JsVal)) (K : String)
    (fs : List (String × List Validator)) (acc : Bool × List (String × String))
    (h : ∀ p ∈ fs, p.1 ++ "Err" ≠ K) :
    alistGet (fs.foldl (validateStep values) acc).2 K = alistGet acc.2 K := by
  induction fs generalizing acc with
  | nil => rfl
  | cons fv fs ih =>
    simp only [List.foldl_cons]
    rw [ih _ (fun p hp => h p (List.mem_cons_of_mem _ hp))]
    unfold validateStep
    cases runFieldValidators fv.1 fv.2 (lookupVal values fv.1) values with
    | none => rfl
    | some msg =>
        exact alistGet_set_ne acc.2 (fv.1 ++ "Err") K msg
          (fun hK => h fv (List.mem_cons_self _ _) hK.symm)

/-- C9: `validate` runs a field's validators in registration order and
stops at the first one that does not return `true`, recording exactly that
validator's message under `field + "Err"` (the per-field result is
`runFieldValidators`, whose very definition short-circuits); fields whose
`...Err` key differs cannot disturb it. -/
theorem C9_validate_short_circuit (pre post : List (String × List Validator))
    (f : String) (vs : List Validator) (values : List (String × JsVal))
    (hpre : ∀ p ∈ pre, p.1 ++ "Err" ≠ f ++ "Err")
    (hpost : ∀ p ∈ post, p.1 ++ "Err" ≠ f ++ "Err") :
    alistGet (validate (pre ++ (f, vs) :: post) values).2 (f ++ "Err")
      = runFieldValidators f vs (lookupVal values f) values := by
  unfold validate
  rw [List.foldl_append, List.foldl_cons]
  rw [lookup_foldl_validateStep_ne values (f ++ "Err") post _ hpost]
  have hmid : alistGet (pre.foldl (validateStep values) (true, [])).2 (f ++ "Err") = none := by
    rw [lookup_foldl_validateStep_ne values (f ++ "Err") pre _ hpre]
    rfl
  unfold validateStep
  cases hrun : runFieldValidators f vs (lookupVal values f) values with
  | none => simpa using hmid
  | some msg => simpa using alistGet_set_self _ (f ++ "Err") msg

/-- C9 witness: a field with validators `[alwaysFails "A", alwaysFails "B"]`
reports only message `"A"`. -/
theorem C9_validate_short_circuit_witness :
    (∀ p ∈ ([] : List (String × List Validator)), p.1 ++ "Err" ≠ "name" ++ "Err")
    ∧ alistGet (validate ([] ++ ("name", [alwaysFails "A", alwaysFails "B"]) :: []) []).2
        ("name" ++ "Err") = some "A" := by
  refine ⟨by simp, ?_⟩
  rw [C9_validate_short_circuit [] [] "name" [alwaysFails "A", alwaysFails "B"] []
    (by simp) (by simp)]
  rfl

/-! ## Claim C7: last-write-wins debounce -/

theorem clearTimeout_ids (ts : List Timer) (tid : Nat) :
    (clearTimeout ts tid).map Timer.id = ts.map Timer.id := by
  unfold clearTimeout
  rw [List.map_map]
  apply List.map_congr_left
  intro t _
  by_cases h : t.id = tid <;> simp [h]

theorem mem_clearTimeout_id (ts : List Timer) (tid : Nat) (t : Timer)
    (h : t ∈ clearTimeout ts tid) : t.id ∈ ts.map Timer.id := by
  rw [← clearTimeout_ids ts tid]
  exact List.mem_map_of_mem Timer.id h

theorem clearTimeout_inactive (ts : List Timer) (tid : Nat) :
    ∀ t ∈ clearTimeout ts tid, t.id = tid → t.active = false := by
  intro t ht hid
  unfold clearTimeout at ht
  rcases List.mem_map.mp ht with ⟨t0, _, rfl⟩
  by_cases h0 : t0.id = tid
  · simp [h0]
  · simp only [if_neg h0] at hid ⊢
    exact absurd hid h0

theorem debouncedAction_timers_ids (k g : String) (a : Nat) (w : DebWorld) :
    (debouncedAction k a g w).timers.map Timer.id
      = w.timers.map Timer.id ++ [w.nextTimerId] := by
  simp only [debouncedAction]
  cases halist : alistGet w.debouncedActions (g ++ "_" ++ k) with
  | none => simp
  | some p =>
      rcases p with ⟨tid, acts⟩
      simp [clearTimeout_ids]

theorem debouncedAction_timers_of_get (k g : String) (a : Nat) (w : DebWorld)
    (tid0 : Nat) (acts0 : List Nat)
    (h : alistGet w.debouncedActions (g ++ "_" ++ k) = some (tid0, acts0)) :
    (debouncedAction k a g w).timers
      = clearTimeout w.timers tid0 ++ [⟨w.nextTimerId, g ++ "_" ++ k, true⟩] := by
  simp only [debouncedAction]
  rw [h]

/-- C7: registering a second callback for the same `(key, groupKey)`
before the first timer fires replaces the registry entry wholly with the
second callback and re-arms a fresh timer; when that timer fires exactly
the second callback executes (appended once to the execution log), firing
the superseded first timer is a no-op, and the first callback never
executes.  The two timer ids are `w.nextTimerId` and `w.nextTimerId + 1`. -/
theorem C7_debounce_last_write_wins (w : DebWorld) (k g : String) (a1 a2 : Nat)
    (hfresh : ∀ t ∈ w.timers, t.id < w.nextTimerId)
    (ha1exec : a1 ∉ w.executed)
    (hne : a1 ≠ a2) :
    alistGet (debouncedAction k a2 g (debouncedAction k a1 g w)).actionRegistry
        (g ++ "_" ++ k) = some [a2]
    ∧ (fireTimer (debouncedAction k a2 g (debouncedAction k a1 g w))
        (w.nextTimerId + 1)).executed = w.executed ++ [a2]
    ∧ fireTimer (debouncedAction k a2 g (debouncedAction k a1 g w)) w.nextTimerId
        = debouncedAction k a2 g (debouncedAction k a1 g w)
    ∧ a1 ∉ (fireTimer (debouncedAction k a2 g (debouncedAction k a1 g w))
        (w.nextTimerId + 1)).executed := by
  have hw1deb : (debouncedAction k a1 g w).debouncedActions
      = alistSet w.debouncedActions (g ++ "_" ++ k) (w.nextTimerId, [a1]) := rfl
  have hw1next : (debouncedAction k a1 g w).nextTimerId = w.nextTimerId + 1 := rfl
  have hw1ids := debouncedAction_timers_ids k g a1 w
  have hw2get : alistGet (debouncedAction k a1 g w).debouncedActions (g ++ "_" ++ k)
      = some (w.nextTimerId, [a1]) := by
    rw [hw1deb]
    exact alistGet_set_self _ _ _
  have hw2timers : (debouncedAction k a2 g (debouncedAction k a1 g w)).timers
      = clearTimeout (debouncedAction k a1 g w).timers w.nextTimerId
        ++ [⟨w.nextTimerId + 1, g ++ "_" ++ k, true⟩] := by
    rw [debouncedAction_timers_of_get k g a2 (debouncedAction k a1 g w)
      w.nextTimerId [a1] hw2get, hw1next]
  have hregself : alistGet
      (debouncedAction k a2 g (debouncedAction k a1 g w)).actionRegistry
      (g ++ "_" ++ k) = some [a2] := alistGet_set_self _ _ _
  have hw2exec : (debouncedAction k a2 g (debouncedAction k a1 g w)).executed
      = w.executed := rfl
  -- the fresh timer of the second registration is found when it fires
  have hfind2 : (debouncedAction k a2 g (debouncedAction k a1 g w)).timers.find?
      (fun t => t.id = w.nextTimerId + 1 && t.active)
      = some ⟨w.nextTimerId + 1, g ++ "_" ++ k, true⟩ := by
    rw [hw2timers, List.find?_append]
    have h1 : (clearTimeout (debouncedAction k a1 g w).timers w.nextTimerId).find?
        (fun t => t.id = w.nextTimerId + 1 && t.active) = none := by
      apply List.find?_eq_none.mpr
      intro t ht
      have hid := mem_clearTimeout_id _ _ _ ht
      rw [hw1ids] at hid
      have : t.id ≠ w.nextTimerId + 1 := by
        rcases List.mem_append.mp hid with hmem | hmem
        · rcases List.mem_map.mp hmem with ⟨t0, ht0, hid0⟩
          have := hfresh t0 ht0
          omega
        · simp only [List.mem_singleton] at hmem
          omega
      simp [this]
    rw [h1]
    simp [List.find?]
  -- the first registration's timer was cleared: firing it finds nothing
  have hfind1 : (debouncedAction k a2 g (debouncedAction k a1 g w)).timers.find?
      (fun t => t.id = w.nextTimerId && t.active) = none := by
    rw [hw2timers, List.find?_append]
    have h1 : (clearTimeout (debouncedAction k a1 g w).timers w.nextTimerId).find?
        (fun t => t.id = w.nextTimerId && t.active) = none := by
      apply List.find?_eq_none.mpr
      intro t ht
      by_cases hid : t.id = w.nextTimerId
      · have := clearTimeout_inactive _ _ t ht hid
        simp [this]
      · simp [hid]
    rw [h1]
    simp [List.find?]
  have hfire2 : (fireTimer (debouncedAction k a2 g (debouncedAction k a1 g w))
      (w.nextTimerId + 1)).executed = w.executed ++ [a2] := by
    unfold fireTimer
    rw [hfind2]
    simp only
    rw [show alistGet
      (debouncedAction k a2 g (debouncedAction k a1 g w)).actionRegistry
      (Timer.actionKey ⟨w.nextTimerId + 1, g ++ "_" ++ k, true⟩) = some [a2] from hregself]
    simpa using hw2exec
  refine ⟨hregself, hfire2, ?_, ?_⟩
  · unfold fireTimer
    rw [hfind1]
  · rw [hfire2]
    simp only [List.mem_append, List.mem_singleton]
    rintro (h | h)
    · exact ha1exec h
    · exact hne h

/-- C7 witness: a concrete double registration on the empty world. -/
theorem C7_debounce_last_write_wins_witness :
    (∀ t ∈ (({} : DebWorld)).timers, t.id < ({} : DebWorld).nextTimerId)
    ∧ (1 ∉ ({} : DebWorld).executed) ∧ (1 ≠ 2)
    ∧ (alistGet (debouncedAction "5" 2 "like" (debouncedAction "5" 1 "like" {})).actionRegistry
        ("like" ++ "_" ++ "5") = some [2]
      ∧ (fireTimer (debouncedAction "5" 2 "like" (debouncedAction "5" 1 "like" {}))
          (({} : DebWorld).nextTimerId + 1)).executed = ({} : DebWorld).executed ++ [2]
      ∧ fireTimer (debouncedAction "5" 2 "like" (debouncedAction "5" 1 "like" {}))
          ({} : DebWorld).nextTimerId
          = debouncedAction "5" 2 "like" (debouncedAction "5" 1 "like" {})
      ∧ 1 ∉ (fireTimer (debouncedAction "5" 2 "like" (debouncedAction "5" 1 "like" {}))
          (({} : DebWorld).nextTimerId + 1)).executed) :=
  ⟨by simp, by simp, by decide,
    C7_debounce_last_write_wins {} "5" "like" 1 2 (by simp) (by simp) (by decide)⟩

/-! ## Claim C8: group-cancellation scope -/

/-- C8 counterexample: an action registered under group `"g_x"` (composite
key `"g_x_k"`) IS cancelled by `cancelDebouncedActionsByGroup "g"`,
because the cancellation matches on the composite-key prefix `"g_"`;
the claim asserts groups sharing the prefix are unaffected. -/
theorem C8_group_cancel_counterexample :
    alistGet (debouncedAction "k" 7 "g_x" {}).debouncedActions "g_x_k" = some (0, [7])
    ∧ alistGet (debouncedAction "k" 7 "g_x" {}).actionRegistry "g_x_k" = some [7]
    ∧ alistGet (cancelDebouncedActionsByGroup "g"
        (debouncedAction "k" 7 "g_x" {})).debouncedActions "g_x_k" = none
    ∧ alistGet (cancelDebouncedActionsByGroup "g"
        (debouncedAction "k" 7 "g_x" {})).actionRegistry "g_x_k" = none := by
  refine ⟨rfl, rfl, rfl, rfl⟩

theorem mem_cancel_keys_startsWith (w : DebWorld) (g k' : String)
    (h : k' ∈ (w.debouncedActions.filter
      (fun p => strStartsWith p.1 (g ++ "_"))).map (fun p => p.1)) :
    strStartsWith k' (g ++ "_") = true := by
  rcases List.mem_map.mp h with ⟨p, hp, rfl⟩
  exact (List.mem_filter.mp hp).2

theorem mem_cancel_keys_of_key (w : DebWorld) (g k' : String)
    (hpre : strStartsWith k' (g ++ "_") = true)
    (hmem : k' ∈ w.debouncedActions.map Prod.fst) :
    k' ∈ (w.debouncedActions.filter
      (fun p => strStartsWith p.1 (g ++ "_"))).map (fun p => p.1) := by
  rcases List.mem_map.mp hmem with ⟨p, hp, rfl⟩
  exact List.mem_map.mpr ⟨p, List.mem_filter.mpr ⟨hp, hpre⟩, rfl⟩

/-- C8 (amended): `cancelDebouncedActionsByGroup g` cancels (without
running anything) exactly the entries whose composite key begins with
`g + "_"` — which covers every entry of group `g` but also entries of any
other group whose name extends `g` by an underscore — and leaves entries
whose composite key lacks that prefix untouched in both maps. -/
theorem C8_group_cancel_prefix_scope (w : DebWorld) (g key : String) :
    (cancelDebouncedActionsByGroup g w).executed = w.executed
    ∧ (strStartsWith key (g ++ "_") = true →
        alistGet (cancelDebouncedActionsByGroup g w).debouncedActions key = none)
    ∧ (strStartsWith key (g ++ "_") = false →
        alistGet (cancelDebouncedActionsByGroup g w).debouncedActions key
            = alistGet w.debouncedActions key
          ∧ alistGet (cancelDebouncedActionsByGroup g w).actionRegistry key
            = alistGet w.actionRegistry key) := by
  refine ⟨rfl, ?_, ?_⟩
  · intro hpre
    show alistGet (((w.debouncedActions.filter
        (fun p => strStartsWith p.1 (g ++ "_"))).map (fun p => p.1)).foldl
        (fun m k => alistDel m k) w.debouncedActions) key = none
    by_cases hmem : key ∈ (w.debouncedActions.filter
        (fun p => strStartsWith p.1 (g ++ "_"))).map (fun p => p.1)
    · exact alistGet_foldl_del_mem _ _ _ hmem
    · apply alistGet_foldl_del_none
      apply alistGet_eq_none_of_not_mem_keys
      intro hkeys
      exact hmem (mem_cancel_keys_of_key w g key hpre hkeys)
  · intro hpre
    have hnot : key ∉ (w.debouncedActions.filter
        (fun p => strStartsWith p.1 (g ++ "_"))).map (fun p => p.1) := by
      intro hmem
      rw [mem_cancel_keys_startsWith w g key hmem] at hpre
      cases hpre
    exact ⟨alistGet_foldl_del_not_mem _ _ _ hnot, alistGet_foldl_del_not_mem _ _ _ hnot⟩

/-- C8 witness: a foreign-but-prefix-sharing group (`"g_x"`) is cancelled
by a `"g"` group cancel, and a key outside the prefix is untouched. -/
theorem C8_group_cancel_prefix_scope_witness :
    alistGet (cancelDebouncedActionsByGroup "g"
        (debouncedAction "k" 7 "other" {})).debouncedActions "g_x_k" = none
    ∧ (alistGet (cancelDebouncedActionsByGroup "g"
          (debouncedAction "k" 7 "other" {})).debouncedActions "other_k"
        = alistGet (debouncedAction "k" 7 "other" {}).debouncedActions "other_k"
      ∧ alistGet (cancelDebouncedActionsByGroup "g"
          (debouncedAction "k" 7 "other" {})).actionRegistry "other_k"
        = alistGet (debouncedAction "k" 7 "other" {}).actionRegistry "other_k") :=
  ⟨(C8_group_cancel_prefix_scope (debouncedAction "k" 7 "other" {}) "g" "g_x_k").2.1 rfl,
   (C8_group_cancel_prefix_scope (debouncedAction "k" 7 "other" {}) "g" "other_k").2.2 rfl⟩

/-! ## Claim C3: pending-admission guard freezes state -/

/-- C3: with `fetchIfPending = false` and a primary fetch outstanding
(`isPending`), a renewed primary `fetch` call is a strict no-op: the
state (in particular `data`, `error`, `status`) is returned unchanged,
the thunk is not invoked, and the only output is the console warning. -/
theorem C3_pending_guard_rejects (st : SaiState)
    (hp : st.options.fetchIfPendingV = false) (hpend : st.isPending = true) :
    fetchStart st none none
      = (st, false, ["Fetch is already pending and fetchIfPending is false."]) := by
  unfold fetchStart
  rw [hp, hpend]
  simp

/-- C3 witness: a concrete pending instance rejects a repeated primary
call without any state change. -/
theorem C3_pending_guard_rejects_witness :
    (setPending (initState {})).options.fetchIfPendingV = false
    ∧ (setPending (initState {})).isPending = true
    ∧ fetchStart (setPending (initState {})) none none
      = (setPending (initState {}), false,
         ["Fetch is already pending and fetchIfPending is false."]) :=
  ⟨rfl, rfl, C3_pending_guard_rejects (setPending (initState {})) rfl rfl⟩

/-! ## Claim C4: the pending guard also rejects scroll-triggered calls -/

/-- C4 counterexample: with a primary fetch pending and
`fetchIfPending = false`, a scroll-triggered call
`fetch(thunk, 'fromScroll', 'top')` is NOT admitted — the thunk is not
invoked (`false` in the middle component) and the state is unchanged —
whereas the claim says scroll calls are exempt from the guard. -/
theorem C4_scroll_call_rejected_counterexample :
    fetchStart (setPending (initState { id := some (some "c4") }))
        (some "fromScroll") (some "top")
      = (setPending (initState { id := some (some "c4") }), false,
         ["Fetch is already pending and fetchIfPending is false."]) := rfl

/-- C4 (amended): the pending-admission guard applies to every `fetch`
call, whatever its `fromWhere`/`fetchWhat` arguments: while the primary
fetch is pending with `fetchIfPending = false`, scroll-triggered calls
are rejected exactly like primary ones (warning only, no thunk
invocation, no state change).  Only the have-data guard is restricted to
primary calls. -/
theorem C4_pending_guard_rejects_scroll (st : SaiState)
    (fromWhere fetchWhat : Option String)
    (hp : st.options.fetchIfPendingV = false) (hpend : st.isPending = true) :
    fetchStart st fromWhere fetchWhat
      = (st, false, ["Fetch is already pending and fetchIfPending is false."]) := by
  unfold fetchStart
  rw [hp, hpend]
  simp

/-- C4 witness: the amended guard at a concrete scroll-triggered call. -/
theorem C4_pending_guard_rejects_scroll_witness :
    (setPending (initState { id := some (some "c4") })).options.fetchIfPendingV = false
    ∧ (setPending (initState { id := some (some "c4") })).isPending = true
    ∧ fetchStart (setPending (initState { id := some (some "c4") }))
        (some "fromScroll") (some "bot")
      = (setPending (initState { id := some (some "c4") }), false,
         ["Fetch is already pending and fetchIfPending is false."]) :=
  ⟨rfl, rfl, C4_pending_guard_rejects_scroll (setPending (initState { id := some (some "c4") }))
    (some "fromScroll") (some "bot") rfl rfl⟩

/-! ## Claim C6: scroll-fetch failures stay on their axis -/

/-- C6: when the thunk of a scroll-triggered fetch rejects, the complete
failure path (`.catch` then `.finally`, a total function — the rejection
is consumed, never re-thrown to the caller of `fetch`) updates only the
axis named by `fetchWhat`: a top failure sets
`topStatus/topError/isTop*`, a bottom failure the `bot` counterparts; the
primary `status`, `error`, `data` and `is*` flags and the other axis are
untouched. -/
theorem C6_scroll_rejection_axis_isolation (st : SaiState) (err : String)
    (fetchWhat : String) (hw : fetchWhat = "top" ∨ fetchWhat = "bot") :
    (fetchReject st (some "fromScroll") (some fetchWhat) err).status = st.status
    ∧ (fetchReject st (some "fromScroll") (some fetchWhat) err).error = st.error
    ∧ (fetchReject st (some "fromScroll") (some fetchWhat) err).data = st.data
    ∧ (fetchReject st (some "fromScroll") (some fetchWhat) err).isPending = st.isPending
    ∧ (fetchReject st (some "fromScroll") (some fetchWhat) err).isFulfilled = st.isFulfilled
    ∧ (fetchReject st (some "fromScroll") (some fetchWhat) err).isRejected = st.isRejected
    ∧ (fetchWhat = "top" →
        (fetchReject st (some "fromScroll") (some fetchWhat) err).topStatus = "rejected"
        ∧ (fetchReject st (some "fromScroll") (some fetchWhat) err).topError = some err
        ∧ (fetchReject st (some "fromScroll") (some fetchWhat) err).isTopRejected = true
        ∧ (fetchReject st (some "fromScroll") (some fetchWhat) err).isTopPending = false
        ∧ (fetchReject st (some "fromScroll") (some fetchWhat) err).botStatus = st.botStatus
        ∧ (fetchReject st (some "fromScroll") (some fetchWhat) err).botError = st.botError)
    ∧ (fetchWhat = "bot" →
        (fetchReject st (some "fromScroll") (some fetchWhat) err).botStatus = "rejected"
        ∧ (fetchReject st (some "fromScroll") (some fetchWhat) err).botError = some err
        ∧ (fetchReject st (some "fromScroll") (some fetchWhat) err).isBotRejected = true
        ∧ (fetchReject st (some "fromScroll") (some fetchWhat) err).isBotPending = false
        ∧ (fetchReject st (some "fromScroll") (some fetchWhat) err).topStatus = st.topStatus
        ∧ (fetchReject st (some "fromScroll") (some fetchWhat) err).topError = st.topError) := by
  have hfin : ∀ s : SaiState, (fetchFinally s).status = s.status
      ∧ (fetchFinally s).error = s.error ∧ (fetchFinally s).data = s.data
      ∧ (fetchFinally s).isPending = s.isPending
      ∧ (fetchFinally s).isFulfilled = s.isFulfilled
      ∧ (fetchFinally s).isRejected = s.isRejected
      ∧ (fetchFinally s).topStatus = s.topStatus
      ∧ (fetchFinally s).topError = s.topError
      ∧ (fetchFinally s).isTopRejected = s.isTopRejected
      ∧ (fetchFinally s).isTopPending = s.isTopPending
      ∧ (fetchFinally s).botStatus = s.botStatus
      ∧ (fetchFinally s).botError = s.botError
      ∧ (fetchFinally s).isBotRejected = s.isBotRejected
      ∧ (fetchFinally s).isBotPending = s.isBotPending := by
    intro s
    unfold fetchFinally
    cases s.oldOptions <;> simp
  rcases hw with hw | hw <;> subst hw <;>
    simp [fetchReject, hfin, fetchRejected, setTopRejected, setBotRejected]

/-- C6 witness: a concrete top-axis failure. -/
theorem C6_scroll_rejection_axis_isolation_witness :
    ("top" = "top" ∨ ("top" : String) = "bot")
    ∧ ((fetchReject (initState {}) (some "fromScroll") (some "top") "boom").status
          = (initState {}).status
      ∧ (fetchReject (initState {}) (some "fromScroll") (some "top") "boom").error
          = (initState {}).error
      ∧ (fetchReject (initState {}) (some "fromScroll") (some "top") "boom").data
          = (initState {}).data
      ∧ (fetchReject (initState {}) (some "fromScroll") (some "top") "boom").isPending
          = (initState {}).isPending
      ∧ (fetchReject (initState {}) (some "fromScroll") (some "top") "boom").isFulfilled
          = (initState {}).isFulfilled
      ∧ (fetchReject (initState {}) (some "fromScroll") (some "top") "boom").isRejected
          = (initState {}).isRejected
      ∧ ("top" = "top" →
          (fetchReject (initState {}) (some "fromScroll") (some "top") "boom").topStatus
            = "rejected"
          ∧ (fetchReject (initState {}) (some "fromScroll") (some "top") "boom").topError
            = some "boom"
          ∧ (fetchReject (initState {}) (some "fromScroll") (some "top") "boom").isTopRejected
            = true
          ∧ (fetchReject (initState {}) (some "fromScroll") (some "top") "boom").isTopPending
            = false
          ∧ (fetchReject (initState {}) (some "fromScroll") (some "top") "boom").botStatus
            = (initState {}).botStatus
          ∧ (fetchReject (initState {}) (some "fromScroll") (some "top") "boom").botError
            = (initState {}).botError)
      ∧ (("top" : String) = "bot" →
          (fetchReject (initState {}) (some "fromScroll") (some "top") "boom").botStatus
            = "rejected"
          ∧ (fetchReject (initState {}) (some "fromScroll") (some "top") "boom").botError
            = some "boom"
          ∧ (fetchReject (initState {}) (some "fromScroll") (some "top") "boom").isBotRejected
            = true
          ∧ (fetchReject (initState {}) (some "fromScroll") (some "top") "boom").isBotPending
            = false
          ∧ (fetchReject (initState {}) (some "fromScroll") (some "top") "boom").topStatus
            = (initState {}).topStatus
          ∧ (fetchReject (initState {}) (some "fromScroll") (some "top") "boom").topError
            = (initState {}).topError)) :=
  ⟨Or.inl rfl, C6_scroll_rejection_axis_isolation (initState {}) "boom" "top" (Or.inl rfl)⟩

/-! ## Claim C5: the top-trigger id guard is inverted (code bug) -/

/-- C5: evaluating `handleScrollUpdate` at the failing input.  With an
identifiable `id` on the first item of `data.items` the top trigger warns
`We can't find your relative Id` and aborts (no `fetch` call), and with
NO id it proceeds to `fetch(..., 'fromScroll', 'top')` — the exact
opposite of the claim (and of the warning's own text and the symmetric
bottom-trigger guard, which tests `!...id`): the source line 921 tests
`this?.data?.[path]?.[0]?.id` where the bottom trigger tests the
negation. -/
theorem C5_top_guard_inverted_eval :
    (handleScrollUpdate c5StWithId (.obj []) 0 200 100).map
        (fun r => (r.console, r.fetchCalls))
      = .ok (["FETCH TOP", "We can\x27t find your relative Id"], [])
    ∧ (handleScrollUpdate c5StNoId (.obj []) 0 200 100).map
        (fun r => (r.console, r.fetchCalls))
      = .ok (["FETCH TOP"], [("fromScroll", "top")]) :=
  ⟨rfl, rfl⟩

/-! ## Claim C1: eviction boundary -/

/-- C1 counterexample: at the displacement boundary (`gettedToTop = -2`,
`startFrom = "top"`, `limit = 10`) the bottom-growth merge does remove
exactly the oldest 10 items from `data.items` and does set
`isHaveMoreTop`, but `scrollCachedData` receives the 10 items FOLLOWING
the evicted block (the post-splice head of the list), not the evicted
items; moreover a top-triggered fetch INCREMENTS `gettedToTop` (here
`-3 ↦ -2`), so two top fetches from the origin reach `+2`, not `-2` —
the boundary is reached by bottom-triggered fetches. -/
theorem C1_eviction_cache_counterexample :
    (fetchResolve c1St c1St {} (some "fromScroll") (some "bot") c1Result).map
        (fun r => (getPathValue r.1.data "items", r.1.isHaveMoreTop, r.1.scrollCachedData))
      = some (.arr (c1Items.drop 10 ++ c1NewItems), true, c1Items.drop 10)
    ∧ c1Items.drop 10 ≠ c1Items.take 10
    ∧ (handleScrollUpdate c1TopSt (.obj []) 0 200 100).map
        (fun r => (r.st.gettedToTop, r.fetchCalls))
      = .ok (-2, [("fromScroll", "top")]) := by
  refine ⟨rfl, ?_, rfl⟩
  intro h
  have := congrArg (fun l => l.head?) h
  simp [c1Items, List.range_succ] at this

theorem jsSet_obj_eq (fields : List (String × JsVal)) (k : String) (x : JsVal) :
    jsSet (.obj fields) k x = .obj (alistSet fields k x) := by
  unfold jsSet alistSet
  by_cases h : fields.any (fun p => p.1 = k) <;> simp [h]

theorem jsGet_obj_eq (fields : List (String × JsVal)) (k : String) :
    jsGet (.obj fields) k = (alistGet fields k).getD .undefined := by
  unfold jsGet alistGet
  cases h : fields.find? (fun p => p.1 = k) <;> simp [h]

theorem jsGet_jsSet_obj_self (fields : List (String × JsVal)) (k : String) (x : JsVal) :
    jsGet (jsSet (.obj fields) k x) k = x := by
  rw [jsSet_obj_eq, jsGet_obj_eq, alistGet_set_self]
  rfl

theorem getPathValue_single (p : String) (hsplit : jsSplitOnDot p = [p]) (v : JsVal) :
    getPathValue v p
      = (if v.truthy then
          match jsGet v p with
          | .undefined => .null
          | x => x
        else .null) := by
  unfold getPathValue
  rw [hsplit]
  rfl

theorem setPathValue_single (p : String) (hsplit : jsSplitOnDot p = [p])
    (v x : JsVal) : setPathValue v p x = jsSet v p x := by
  unfold setPathValue
  rw [hsplit]
  rfl

theorem jsSlice_zero_nonneg (zs : List JsVal) (L : Int) (hL : 0 ≤ L) :
    jsSlice zs 0 L = zs.take L.toNat := by
  unfold jsSlice jsSliceIdx
  rw [if_neg (by omega : ¬ L < 0), if_neg (by omega : ¬ (0 : Int) < 0)]
  simp only [Int.toNat_zero, Nat.zero_min, List.drop_zero]
  rcases le_or_lt (L.toNat) zs.length with h | h
  · rw [min_eq_left h]
  · rw [min_eq_right (le_of_lt h), List.take_length, List.take_of_length_le (le_of_lt h)]

theorem jsGetE_obj (fields : List (String × JsVal)) (k : String) :
    jsGetE (.obj fields) k = .ok (jsGet (.obj fields) k) := rfl

/-- C1 (amended): at the displacement boundary with `startFrom = "top"`
(`gettedToTop = -howMuchGettedToTop`, reached by bottom-triggered fetches,
since the top trigger increments the counter), a successful bottom-growth
merge removes exactly the oldest `limit` items from the list at
`fetchAddTo.path`, sets `isHaveMoreTop` to true, and stores into
`scrollCachedData` the first `limit` items of the REMAINING list (the
window following the evicted block), then appends the incoming page. -/
theorem C1_eviction_boundary_amended
    (st : SaiState) (ext : ExtState) (fs : List (String × JsVal))
    (p : String) (xs ys : List JsVal) (m L : Int) (result : JsVal)
    (hsplit : jsSplitOnDot p = [p])
    (hdata : st.data = .obj fs)
    (hxs : jsGet (.obj fs) p = .arr xs)
    (hres : jsGet result p = .arr ys)
    (hsf : st.options.startFromV = some "top")
    (hm : st.options.howMuchV = some m)
    (hg : st.gettedToTop = -m)
    (hL : st.options.csLimitV = some L) (hL0 : 0 ≤ L)
    (haddTo : st.options.faAddToV = some "end")
    (hpath : st.options.faPathV = p)
    (hcb : st.options.faSetArrCallbackV = false)
    (hsd : st.options.isSetDataV = true) :
    mergeArrayBranch st st ext (some "bot") result
      = .ok ({ st with
          isHaveMoreTop := true
          data := jsSet (jsSet (.obj fs) p (.arr (xs.drop L.toNat))) p
                    (.arr (xs.drop L.toNat ++ ys))
          scrollCachedData := (xs.drop L.toNat).take L.toNat
          fetchedCount := st.fetchedCount + 1
          addedToEndCount := st.addedToEndCount + 1 }, ext, false) := by
  have hd1 : (decide ((some "bot" : Option String) = some "top")) = false := by decide
  have hd2 : (decide ((some "end" : Option String) = some "start")) = false := by decide
  unfold mergeArrayBranch
  simp only [hg, hsf, hm, hpath, haddTo, hcb, hL, hsd, hdata, hxs, hres,
    jsGetE_obj, jsSet_obj_eq, jsGet_obj_eq, alistGet_set_self, Option.getD_some,
    getPathValue_single p hsplit, setPathValue_single p hsplit,
    spliceDropFirst, sliceFirst, jsSlice_zero_nonneg _ _ hL0,
    JsVal.isArr, JsVal.truthy, JsVal.nullish, JsVal.arrItems,
    le_refl, decide_True, Bool.true_and, Bool.and_self, Bool.and_true,
    Bool.not_false, if_pos, if_true, hd1, hd2,
    Bool.false_and, Bool.and_false, if_false, Bool.not_true,
    bind, Except.bind, pure, Except.pure, Bool.true_or, Bool.or_true,
    Bool.false_eq_true, Bool.true_eq_false, ite_true, ite_false,
    setAddedToEndCount, setFetchedCount]

/-- C1 witness: the amended boundary behavior at the concrete 20-item
list with `limit = 10`, `howMuchGettedToTop = 2`, `gettedToTop = -2`. -/
theorem C1_eviction_boundary_amended_witness :
    jsSplitOnDot "items" = ["items"]
    ∧ c1St.gettedToTop = -(2 : Int)
    ∧ (0 : Int) ≤ 10
    ∧ mergeArrayBranch c1St c1St {} (some "bot") c1Result
      = .ok ({ c1St with
          isHaveMoreTop := true
          data := jsSet (jsSet (.obj [("items", .arr c1Items)]) "items"
                    (.arr (c1Items.drop (10 : Int).toNat))) "items"
                    (.arr (c1Items.drop (10 : Int).toNat ++ c1NewItems))
          scrollCachedData := (c1Items.drop (10 : Int).toNat).take (10 : Int).toNat
          fetchedCount := c1St.fetchedCount + 1
          addedToEndCount := c1St.addedToEndCount + 1 }, {}, false) :=
  ⟨rfl, rfl, by decide,
    C1_eviction_boundary_amended c1St {} [("items", .arr c1Items)] "items"
      c1Items c1NewItems 2 10 c1Result rfl rfl rfl rfl rfl rfl rfl rfl (by decide)
      rfl rfl rfl rfl⟩

/-! ## Claim C10: options-rebuild precedence on cache hit -/

/-- C10 counterexample: `dataScope.scrollRef` is an option key with no
entry in `defaultOptions.dataScope`, so a cached `scrollRef` survives a
later call that omits it — the merged options keep the cached value, so
NOT every omitted key is reset to a library default. -/
theorem C10_merge_counterexample :
    c10Cached.dsV.scrollRef = some true
    ∧ (mergeOptions c10Cached {}).dsV.scrollRef = some true
    ∧ defaultOptions.dsV.scrollRef = none :=
  ⟨rfl, rfl, rfl⟩

/-- C10 (amended): the cache-hit rebuild spreads the cached options, then
`defaultOptions`, then the new call's options (likewise per sub-object),
so for every key that `defaultOptions` defines — all top-level keys, both
`cacheSystem` keys, all `fetchAddTo` keys, and every `dataScope` key
except `scrollRef`/`onScroll` — the effective value is the new call's if
present, else the library default, and a cached value never survives; the
two keys absent from `defaultOptions` (`dataScope.scrollRef` and
`dataScope.onScroll`) instead fall back from the new call to the cached
instance. -/
theorem C10_merge_precedence_amended (cached opts : SaiOptions) :
    ((mergeOptions cached opts).id = (opts.id <|> defaultOptions.id)
      ∧ (mergeOptions cached opts).page = (opts.page <|> defaultOptions.page)
      ∧ (mergeOptions cached opts).pageSetterName
          = (opts.pageSetterName <|> defaultOptions.pageSetterName)
      ∧ (mergeOptions cached opts).isFetchUp = (opts.isFetchUp <|> defaultOptions.isFetchUp)
      ∧ (mergeOptions cached opts).fetchType = (opts.fetchType <|> defaultOptions.fetchType)
      ∧ (mergeOptions cached opts).fetchIfPending
          = (opts.fetchIfPending <|> defaultOptions.fetchIfPending)
      ∧ (mergeOptions cached opts).fetchIfHaveData
          = (opts.fetchIfHaveData <|> defaultOptions.fetchIfHaveData)
      ∧ (mergeOptions cached opts).isSetData = (opts.isSetData <|> defaultOptions.isSetData)
      ∧ (mergeOptions cached opts).needPending
          = (opts.needPending <|> defaultOptions.needPending))
    ∧ ((mergeOptions cached opts).csV.limit = (opts.csV.limit <|> defaultOptions.csV.limit)
      ∧ (mergeOptions cached opts).csV.setCache
          = (opts.csV.setCache <|> defaultOptions.csV.setCache))
    ∧ ((mergeOptions cached opts).dsV.cls = (opts.dsV.cls <|> defaultOptions.dsV.cls)
      ∧ (mergeOptions cached opts).dsV.startFrom
          = (opts.dsV.startFrom <|> defaultOptions.dsV.startFrom)
      ∧ (mergeOptions cached opts).dsV.topPercentage
          = (opts.dsV.topPercentage <|> defaultOptions.dsV.topPercentage)
      ∧ (mergeOptions cached opts).dsV.botPercentage
          = (opts.dsV.botPercentage <|> defaultOptions.dsV.botPercentage)
      ∧ (mergeOptions cached opts).dsV.relativeParamsKey
          = (opts.dsV.relativeParamsKey <|> defaultOptions.dsV.relativeParamsKey)
      ∧ (mergeOptions cached opts).dsV.upOrDownParamsKey
          = (opts.dsV.upOrDownParamsKey <|> defaultOptions.dsV.upOrDownParamsKey)
      ∧ (mergeOptions cached opts).dsV.isHaveMoreResKey
          = (opts.dsV.isHaveMoreResKey <|> defaultOptions.dsV.isHaveMoreResKey)
      ∧ (mergeOptions cached opts).dsV.howMuchGettedToTop
          = (opts.dsV.howMuchGettedToTop <|> defaultOptions.dsV.howMuchGettedToTop)
      ∧ (mergeOptions cached opts).dsV.setParams
          = (opts.dsV.setParams <|> defaultOptions.dsV.setParams))
    ∧ ((mergeOptions cached opts).faV.path = (opts.faV.path <|> defaultOptions.faV.path)
      ∧ (mergeOptions cached opts).faV.addTo = (opts.faV.addTo <|> defaultOptions.faV.addTo)
      ∧ (mergeOptions cached opts).faV.isSetReversedArr
          = (opts.faV.isSetReversedArr <|> defaultOptions.faV.isSetReversedArr)
      ∧ (mergeOptions cached opts).faV.isSetPrevArr
          = (opts.faV.isSetPrevArr <|> defaultOptions.faV.isSetPrevArr)
      ∧ (mergeOptions cached opts).faV.setArrCallback
          = (opts.faV.setArrCallback <|> defaultOptions.faV.setArrCallback))
    ∧ ((mergeOptions cached opts).dsV.scrollRef
          = (opts.dsV.scrollRef <|> cached.dsV.scrollRef)
      ∧ (mergeOptions cached opts).dsV.onScroll
          = (opts.dsV.onScroll <|> cached.dsV.onScroll)) := by
  simp [mergeOptions, spreadOpts, spreadDS, spreadCS, spreadFA,
    SaiOptions.dsV, SaiOptions.csV, SaiOptions.faV, defaultOptions,
    Option.some_orElse, Option.none_orElse]

/-! ## Claim C2: cache identity of the factory -/

theorem factory_cache_after (pf : PromiseOrFn) (opts : SaiOptions) (fs : FactoryState)
    (ext : ExtState) (out : FactoryOut) (s : String)
    (hids : opts.idV = some s) (hs : s ≠ "")
    (h : mobxSaiFetch pf opts fs ext = .ok out) :
    ∃ i, alistGet out.fs.cache s = some i
      ∧ (out.ret = .ref i ∨ ∃ d, out.ret = .snap i d) := by
  unfold mobxSaiFetch at h
  rw [hids] at h
  simp only [show optStrTruthy (some s) = true from by simp [optStrTruthy, hs],
    if_true, ite_true, Option.getD_some, eq_self_iff_true,
    pure, Except.pure, throw, throwThe, MonadExceptOf.throw, bind, Except.bind] at h
  split at h
  next idx heq =>
    refine ⟨idx, ?_⟩
    iterate 12 (all_goals try split at h)
    all_goals first
      | (simp at h
         done)
      | (try simp only [pure, Except.pure, bind, Except.bind, Except.ok.injEq] at h
         rw [← h]
         first
           | exact ⟨heq, Or.inl rfl⟩
           | exact ⟨heq, Or.inr ⟨_, rfl⟩⟩)
  next heq =>
    refine ⟨fs.heap.length, ?_⟩
    iterate 8 (all_goals try split at h)
    all_goals first
      | (simp at h
         done)
      | (try simp only [pure, Except.pure, bind, Except.bind, Except.ok.injEq] at h
         rw [← h]
         exact ⟨alistGet_set_self _ _ _, Or.inl rfl⟩)

theorem factory_hit (pf : PromiseOrFn) (opts : SaiOptions) (fs : FactoryState)
    (ext : ExtState) (out : FactoryOut) (s : String) (i : Nat)
    (hids : opts.idV = some s) (hs : s ≠ "")
    (hcache : alistGet fs.cache s = some i)
    (h : mobxSaiFetch pf opts fs ext = .ok out) :
    (out.ret = .ref i ∨ ∃ d, out.ret = .snap i d)
    ∧ (∀ d, out.ret = .snap i d →
        out.fs.heap = fs.heap.set i
          { (fs.heap.get? i).getD {} with
            options := mergeOptions ((fs.heap.get? i).getD {}).options opts }) := by
  unfold mobxSaiFetch at h
  rw [hids] at h
  simp only [show optStrTruthy (some s) = true from by simp [optStrTruthy, hs],
    if_true, ite_true, Option.getD_some, eq_self_iff_true,
    pure, Except.pure, throw, throwThe, MonadExceptOf.throw, bind, Except.bind] at h
  split at h
  next idx heq =>
    have hidx : idx = i := by
      rw [heq] at hcache
      exact Option.some.inj hcache
    subst hidx
    iterate 12 (all_goals try split at h)
    all_goals first
      | (simp at h
         done)
      | (try simp only [pure, Except.pure, bind, Except.bind, Except.ok.injEq] at h
         rw [← h]
         first
           | exact ⟨Or.inl rfl, fun d hd => FactoryRet.noConfusion hd⟩
           | exact ⟨Or.inr ⟨_, rfl⟩, fun d hd => rfl⟩)
  next heq =>
    rw [heq] at hcache
    cases hcache

/-- C2 (amended): two `mobxSaiFetch` calls with the same truthy
`options.id` resolve to the same live instance: the second call returns
either a reference to the very same heap slot the first call returned
(`FactoryRet.ref i`, so state mutations are visible through both), or the
cache-snapshot short-circuit's transient object built over that same slot
(`FactoryRet.snap i _`); the snapshot path does not touch the live
instance's data or fetch state, but — like every cache-hit call — it does
first rebuild the instance's `options` by the merge. -/
theorem C2_same_instance_amended (pf1 pf2 : PromiseOrFn) (o1 o2 : SaiOptions)
    (fs : FactoryState) (e1 e2 : ExtState) (out1 out2 : FactoryOut) (s : String)
    (hs : s ≠ "") (hid1 : o1.idV = some s) (hid2 : o2.idV = some s)
    (h1 : mobxSaiFetch pf1 o1 fs e1 = .ok out1)
    (h2 : mobxSaiFetch pf2 o2 out1.fs e2 = .ok out2) :
    ∃ i, (out1.ret = .ref i ∨ ∃ d, out1.ret = .snap i d)
      ∧ (out2.ret = .ref i ∨ ∃ d, out2.ret = .snap i d)
      ∧ (∀ d, out2.ret = .snap i d →
          out2.fs.heap = out1.fs.heap.set i
            { (out1.fs.heap.get? i).getD {} with
              options := mergeOptions ((out1.fs.heap.get? i).getD {}).options o2 }) := by
  obtain ⟨i, hcache, hret1⟩ := factory_cache_after pf1 o1 fs e1 out1 s hid1 hs h1
  obtain ⟨hret2, hsnap⟩ := factory_hit pf2 o2 out1.fs e2 out2 s i hid2 hs hcache h2
  exact ⟨i, hret1, hret2, hsnap⟩

/-- C2 witness: the amended identity at two concrete calls with id
`"a"`, the second of which takes the snapshot short-circuit. -/
theorem C2_same_instance_amended_witness :
    ("a" : String) ≠ ""
    ∧ (∃ i, (c2run1.ret = .ref i ∨ ∃ d, c2run1.ret = .snap i d)
        ∧ (c2run2.ret = .ref i ∨ ∃ d, c2run2.ret = .snap i d)
        ∧ (∀ d, c2run2.ret = .snap i d →
            c2run2.fs.heap = c2run1.fs.heap.set i
              { (c2run1.fs.heap.get? i).getD {} with
                options := mergeOptions ((c2run1.fs.heap.get? i).getD {}).options c2o2 })) :=
  ⟨by decide, C2_same_instance_amended .fnV .fnV c2o1 c2o2 {} {} c2ext c2run1 c2run2 "a"
    (by decide) rfl rfl rfl rfl⟩

/-- C2 counterexample: on the very snapshot path the claim calls
"without mutating the live instance", the live instance IS mutated — its
options are rebuilt before the short-circuit, so the cached
`fetchAddTo.addTo = "end"` of the first call is reset to `"reset"` by a
second call that omits it, while the second call returns a transient
snapshot over slot 0. -/
theorem C2_snapshot_mutation_counterexample :
    (∃ d, c2run2.ret = .snap 0 d)
    ∧ (c2run1.fs.heap.get? 0).map (fun i => i.options.faAddToV) = some (some "end")
    ∧ (c2run2.fs.heap.get? 0).map (fun i => i.options.faAddToV) = some (some "reset") :=
  ⟨⟨_, rfl⟩, rfl, rfl⟩

end MobxToolbox
